import Mathlib

/-
  Verification development for the Flexible-XYmodem protocol engine
  (src/xymodem.c).  The C code is shallowly embedded: machine integers
  are modelled as Nat with explicit truncation (uint8 stores are taken
  mod 256, uint16 mod 65536, uint32 mod 2^32), the transport callbacks
  are modelled as an oracle environment that yields the outcome of the
  i-th send and the i-th recv call, and every unbounded C for-loop is
  driven by an explicit fuel counter (fuel exhaustion returns none).
  Every send attempt is recorded in a trace together with its success
  flag, so that emitted bytes are observable.
-/

set_option maxHeartbeats 4000000

/- Special byte definitions of the XYmodem protocol (xymodem.c lines 35-42). -/
def SOH : Nat := 0x01
def STX : Nat := 0x02
def EOT : Nat := 0x04
def ACK : Nat := 0x06
def NAK : Nat := 0x15
def CANCEL : Nat := 0x18
def CRC16_FLAG : Nat := 0x43
def CTRLZ : Nat := 0x1A
def XYM_PKT_SIZE_128 : Nat := 128
def XYM_PKT_SIZE_1024 : Nat := 1024

/-- Session state enum xym_sta (xymodem.h). -/
inductive xym_sta where
  | XYM_OK
  | XYM_END
  | XYM_FIL_GET
  | XYM_FIL_SET
  | XYM_CANCEL_REMOTE
  | XYM_CANCEL_ACTIVE
  | XYM_ERROR_TIMEOUT
  | XYM_ERROR_RETRANS
  | XYM_ERROR_INVALID_DATA
  | XYM_ERROR_HW
deriving DecidableEq, Repr

open xym_sta

/-- Session control struct xym_session.  The send and recv callback
pointers are modelled as opaque identifiers (Option Nat, none = NULL);
the optional hardware crc16 callback is modelled by its mathematical
meaning (none = NULL).  The lib fields handshake, crc_flag, reply_msg
are uint8, seqno is uint32. -/
structure xym_session where
  send_timeout : Nat
  recv_timeout : Nat
  error_max_retry : Nat
  handshake : Nat
  crc_flag : Nat
  reply_msg : Nat
  seqno : Nat
  send_cb : Option Nat
  recv_cb : Option Nat
  crc16 : Option (List Nat → Nat)

/-- Transport oracle plus progress counters and the trace of all send
attempts (bytes handed to the send callback, paired with the success
flag the callback reported). -/
structure Env where
  sendOk : Nat → Bool
  recvRes : Nat → Option (List Nat)
  si : Nat
  ri : Nat
  tr : List (List Nat × Bool)

/-- One call of the send callback: the oracle decides success. -/
def Env.doSend (e : Env) (bytes : List Nat) : Bool × Env :=
  let ok := e.sendOk e.si
  (ok, { e with si := e.si + 1, tr := e.tr ++ [(bytes, ok)] })

/-- One call of the recv callback asking for cnt bytes.  On success the
oracle's bytes are truncated to uint8 and padded/cut to exactly cnt
bytes (the C callback fills exactly cnt uint8 cells). -/
def Env.doRecv (e : Env) (cnt : Nat) : Option (List Nat) × Env :=
  match e.recvRes e.ri with
  | none => (none, { e with ri := e.ri + 1 })
  | some bs => (some ((bs.map (fun b => b % 256) ++ List.replicate cnt 0).take cnt),
                { e with ri := e.ri + 1 })

/-- C expression (hi << 8) | lo on byte values. -/
def word16 (hi lo : Nat) : Nat := (hi <<< 8) ||| lo

/-- Inner 8-bit loop of the software CRC16 (xymodem.c lines 719-733):
one iteration shifts left and conditionally xors the 0x1021 polynomial;
the uint16 store truncates mod 65536. -/
def crc16_bits : Nat → Nat → Nat
  | 0, r => r
  | j+1, r => crc16_bits j
      (if r &&& 0x8000 ≠ 0 then ((r <<< 1) ^^^ 0x1021) % 65536 else (r <<< 1) % 65536)

/-- Built-in software CRC (poly 0x1021, init 0, no reflection, no final
xor), byte-wise MSB first, from xymodem.c lines 711-734. -/
def crc16_soft (data : List Nat) : Nat :=
  data.foldl (fun r b => crc16_bits 8 ((r ^^^ ((b % 256) <<< 8)) % 65536)) 0

/-- X/Y modem verify data, xymodem.c lines 690-735.  crc_flag == 0:
built-in checksum accumulated in a uint16 (this is the 16-bit modular
sum of the bytes).  Otherwise the registered hardware crc16 callback if
present (its uint16 return value), else the built-in software CRC. -/
def xymodem_verify_data (p : xym_session) (data : List Nat) : Nat :=
  if p.crc_flag = 0 then data.foldl (fun r b => (r + b % 256) % 65536) 0
  else
    match p.crc16 with
    | some f => f data % 65536
    | none => crc16_soft data

/-- Loop of xymodem_active_cancel (xymodem.c lines 83-89):
for (retry = 0; retry <= error_max_retry && cancel_singal_cnt > 0; --cancel_singal_cnt)
incrementing the uint8 retry counter on each failed send. -/
def xymodem_active_cancel_loop (mr : Nat) : Nat → Nat → Env → Nat × Env
  | retry, 0, e => (retry, e)
  | retry, cnt+1, e =>
    if retry ≤ mr then
      match e.doSend [CANCEL] with
      | (ok, e2) =>
        xymodem_active_cancel_loop mr (if ok then retry else (retry + 1) % 256) cnt e2
    else (retry, e)

/-- xymodem_active_cancel, xymodem.c lines 78-91. -/
def xymodem_active_cancel (p : xym_session) (e : Env) : xym_sta × Env :=
  match xymodem_active_cancel_loop p.error_max_retry 0 3 e with
  | (retry, e2) =>
    (if retry ≤ p.error_max_retry then XYM_CANCEL_ACTIVE else XYM_ERROR_HW, e2)

/-- xymodem_session_init, xymodem.c lines 56-70.  The session pointer is
Option (none = NULL); on the NULL check the pointee is untouched,
otherwise it is zeroed and the callbacks and parameters are stored. -/
def xymodem_session_init (p : Option xym_session) (send_cb recv_cb : Option Nat)
    (crc16 : Option (List Nat → Nat)) (send_timeout recv_timeout error_max_retry : Nat) :
    xym_sta × Option xym_session :=
  if ¬ (p.isSome ∧ send_cb.isSome ∧ recv_cb.isSome) then (XYM_ERROR_INVALID_DATA, p)
  else
    (XYM_OK, some { send_timeout := send_timeout, recv_timeout := recv_timeout,
                    error_max_retry := error_max_retry,
                    handshake := 0, crc_flag := 0, reply_msg := 0, seqno := 0,
                    send_cb := send_cb, recv_cb := recv_cb, crc16 := crc16 })

/-- xmodem_init, xymodem.c lines 98-104. -/
def xmodem_init (p : xym_session) : xym_session :=
  let p := { p with handshake := 0 }
  let p := { p with crc_flag := 1 }
  let p := { p with reply_msg := if p.handshake = 0 ∧ p.crc_flag ≠ 0 then CRC16_FLAG else NAK }
  { p with seqno := 1 }

/-- ymodem_init, xymodem.c lines 367-373. -/
def ymodem_init (p : xym_session) : xym_session :=
  let p := { p with handshake := 0 }
  let p := { p with crc_flag := 1 }
  let p := { p with reply_msg := if p.handshake = 0 ∧ p.crc_flag ≠ 0 then CRC16_FLAG else NAK }
  { p with seqno := 0 }

/-- Result of one polled receive call: status, session, caller buffer
content, *size output, environment. -/
structure RunOut where
  sta : xym_sta
  sess : xym_session
  buff : List Nat
  size : Nat
  env : Env

/-- One iteration of the xmodem_receive retry loop either continues with
updated state or returns a RunOut. -/
inductive XRStep where
  | cont (p : xym_session) (buff : List Nat) (hsf : Nat) (retry : Nat) (e : Env)
  | done (o : RunOut)

/-- Body of the xmodem_receive for-loop, xymodem.c lines 126-214.
hsf is the local handshake_flag, retry the current uint8 retry counter
(read by the handshake-alternation test, and reset to 0 by it). -/
def xmodem_receive_step (p : xym_session) (buff : List Nat) (hsf retry : Nat) (e : Env) :
    XRStep :=
  match e.doSend [p.reply_msg] with
  | (ok, e) =>
  if ok = false then .cont p buff hsf retry e
  else
  match e.doRecv 1 with
  | (none, e) =>
    if p.handshake = 0 ∧ hsf = 0 ∧ p.error_max_retry ≤ retry then
      let p := { p with crc_flag := p.crc_flag ^^^ 1 }
      let p := { p with reply_msg := if p.handshake = 0 ∧ p.crc_flag ≠ 0 then CRC16_FLAG else NAK }
      .cont p buff 1 0 e
    else
      let p := { p with reply_msg := if p.handshake = 0 ∧ p.crc_flag ≠ 0 then CRC16_FLAG else NAK }
      .cont p buff hsf retry e
  | (some hd, e) =>
  let p := { p with handshake := 1 }
  let b0 := hd.headD 0
  if b0 = SOH ∨ b0 = STX then
    let pkt := if b0 = SOH then XYM_PKT_SIZE_128 else XYM_PKT_SIZE_1024
    match e.doRecv 2 with
    | (none, e) => .cont { p with reply_msg := NAK } buff hsf retry e
    | (some sq, e) =>
    match e.doRecv pkt with
    | (none, e) => .cont { p with reply_msg := NAK } buff hsf retry e
    | (some pl, e) =>
    let buff := pl ++ buff.drop pkt
    match e.doRecv (if p.crc_flag ≠ 0 then 2 else 1) with
    | (none, e) => .cont { p with reply_msg := NAK } buff hsf retry e
    | (some tl, e) =>
    let h1 := sq.headD 0
    let h2 := (sq.drop 1).headD 0
    -- (~header[2] & 0xFF) = 255 - header[2] for a byte value
    if h1 ≠ 255 - h2 then .cont { p with reply_msg := NAK } buff hsf retry e
    else if (if p.crc_flag ≠ 0 then word16 (tl.headD 0) ((tl.drop 1).headD 0)
             else word16 0 (tl.headD 0)) ≠ xymodem_verify_data p pl then
      .cont { p with reply_msg := NAK } buff hsf retry e
    else if p.seqno % 256 ≠ h1 then
      -- uint32 arithmetic of ((seqno & 0xFF) - 1) == header[1]
      .cont { p with reply_msg :=
        if (p.seqno % 256 + 4294967295) % 4294967296 = h1 then ACK else NAK } buff hsf retry e
    else
      .done ⟨XYM_OK, { p with seqno := (p.seqno + 1) % 4294967296, reply_msg := ACK },
             buff, pkt, e⟩
  else if b0 = EOT then
    let p := { p with reply_msg := ACK }
    match e.doSend [p.reply_msg] with
    | (_, e) => .done ⟨XYM_END, p, buff, 0, e⟩
  else if b0 = CANCEL then
    match e.doRecv 1 with
    | (some hd2, e) =>
      if hd2.headD 0 = CANCEL then
        let p := { p with reply_msg := ACK }
        match e.doSend [p.reply_msg] with
        | (_, e) => .done ⟨XYM_CANCEL_REMOTE, p, buff, 0, e⟩
      else
        match xymodem_active_cancel p e with
        | (_, e2) => .done ⟨XYM_ERROR_INVALID_DATA, p, buff, 0, e2⟩
    | (none, e) =>
      match xymodem_active_cancel p e with
      | (_, e2) => .done ⟨XYM_ERROR_INVALID_DATA, p, buff, 0, e2⟩
  else
    match xymodem_active_cancel p e with
    | (_, e2) => .done ⟨XYM_ERROR_INVALID_DATA, p, buff, 0, e2⟩

/-- Driver of the xmodem_receive for-loop: condition retry <= max, body,
then the unconditional uint8 increment ++retry. -/
def xmodem_receive_loop : Nat → xym_session → List Nat → Nat → Nat → Env → Option RunOut
  | 0, _, _, _, _, _ => none
  | fuel+1, p, buff, hsf, retry, e =>
    if retry ≤ p.error_max_retry then
      match xmodem_receive_step p buff hsf retry e with
      | .done o => some o
      | .cont p' buff' hsf' retry' e' =>
        xmodem_receive_loop fuel p' buff' hsf' ((retry' + 1) % 256) e'
    else
      match xymodem_active_cancel p e with
      | (_, e2) => some ⟨XYM_ERROR_RETRANS, p, buff, 0, e2⟩

/-- xmodem_receive, xymodem.c lines 116-217. -/
def xmodem_receive (fuel : Nat) (p : xym_session) (buff : List Nat) (e : Env) :
    Option RunOut :=
  xmodem_receive_loop fuel p buff 0 0 e

/-- One iteration of the ymodem_receive retry loop: continue carries the
local eot_flag and the continue_reply flag (cr) consulted by the loop
increment. -/
inductive YRStep where
  | cont (p : xym_session) (buff : List Nat) (eotf : Nat) (cr : Nat) (e : Env)
  | done (o : RunOut)

/-- Body of the ymodem_receive for-loop, xymodem.c lines 397-508. -/
def ymodem_receive_step (p : xym_session) (buff : List Nat) (eotf : Nat) (e : Env) :
    YRStep :=
  match e.doSend [p.reply_msg] with
  | (ok, e) =>
  if ok = false then .cont p buff eotf 0 e
  else if p.handshake = 0 ∧ p.reply_msg = ACK then
    .cont { p with reply_msg := CRC16_FLAG } buff eotf 1 e
  else
  match e.doRecv 1 with
  | (none, e) =>
    .cont { p with reply_msg := if p.handshake = 0 then CRC16_FLAG else NAK } buff eotf 0 e
  | (some hd, e) =>
  let p := { p with handshake := 1 }
  let b0 := hd.headD 0
  if b0 = SOH ∨ b0 = STX then
    let pkt := if b0 = SOH then XYM_PKT_SIZE_128 else XYM_PKT_SIZE_1024
    match e.doRecv 2 with
    | (none, e) => .cont { p with reply_msg := NAK } buff eotf 0 e
    | (some sq, e) =>
    match e.doRecv pkt with
    | (none, e) => .cont { p with reply_msg := NAK } buff eotf 0 e
    | (some pl, e) =>
    let buff := pl ++ buff.drop pkt
    match e.doRecv 2 with
    | (none, e) => .cont { p with reply_msg := NAK } buff eotf 0 e
    | (some tl, e) =>
    let h1 := sq.headD 0
    let h2 := (sq.drop 1).headD 0
    let t0 := tl.headD 0
    let t1 := (tl.drop 1).headD 0
    if h1 ≠ 255 - h2 then .cont { p with reply_msg := NAK } buff eotf 0 e
    else if word16 t0 t1 ≠ xymodem_verify_data p pl then
      .cont { p with reply_msg := NAK } buff eotf 0 e
    else if p.seqno % 256 ≠ h1 then
      .cont { p with reply_msg :=
        if (p.seqno % 256 + 4294967295) % 4294967296 = h1 then ACK else NAK } buff eotf 0 e
    else if p.seqno = 0 ∧ pl.headD 0 = 0 ∧ t0 = 0 ∧ t1 = 0 then
      let p := { p with reply_msg := ACK }
      match e.doSend [p.reply_msg] with
      | (_, e) => .done ⟨XYM_END, p, buff, 0, e⟩
    else
      let p := if p.seqno = 0 then { p with handshake := 0 } else p
      let p := { p with seqno := (p.seqno + 1) % 4294967296, reply_msg := ACK }
      .done ⟨if p.handshake ≠ 0 then XYM_OK else XYM_FIL_GET, p, buff, pkt, e⟩
  else if b0 = EOT then
    let p := { p with reply_msg := if eotf = 0 then NAK else ACK }
    let eotf := (eotf + 1) % 256
    if eotf = 2 then .cont { p with handshake := 0, seqno := 0 } buff 0 1 e
    else .cont p buff eotf 1 e
  else if b0 = CANCEL then
    match e.doRecv 1 with
    | (some hd2, e) =>
      if hd2.headD 0 = CANCEL then
        let p := { p with reply_msg := ACK }
        match e.doSend [p.reply_msg] with
        | (_, e) => .done ⟨XYM_CANCEL_REMOTE, p, buff, 0, e⟩
      else
        match xymodem_active_cancel p e with
        | (_, e2) => .done ⟨XYM_ERROR_INVALID_DATA, p, buff, 0, e2⟩
    | (none, e) =>
      match xymodem_active_cancel p e with
      | (_, e2) => .done ⟨XYM_ERROR_INVALID_DATA, p, buff, 0, e2⟩
  else
    match xymodem_active_cancel p e with
    | (_, e2) => .done ⟨XYM_ERROR_INVALID_DATA, p, buff, 0, e2⟩

/-- Driver of the ymodem_receive for-loop: condition retry <= max, body,
then retry += (continue_reply == 0) ? 1 : 0 in uint8. -/
def ymodem_receive_loop : Nat → xym_session → List Nat → Nat → Nat → Env → Option RunOut
  | 0, _, _, _, _, _ => none
  | fuel+1, p, buff, eotf, retry, e =>
    if retry ≤ p.error_max_retry then
      match ymodem_receive_step p buff eotf e with
      | .done o => some o
      | .cont p' buff' eotf' cr e' =>
        ymodem_receive_loop fuel p' buff' eotf'
          (if cr = 0 then (retry + 1) % 256 else retry) e'
    else
      match xymodem_active_cancel p e with
      | (_, e2) => some ⟨XYM_ERROR_RETRANS, p, buff, 0, e2⟩

/-- ymodem_receive, xymodem.c lines 386-511. -/
def ymodem_receive (fuel : Nat) (p : xym_session) (buff : List Nat) (e : Env) :
    Option RunOut :=
  ymodem_receive_loop fuel p buff 0 0 e

/-- Result of one polled transmit call (the caller buffer is included
because the transmit functions pad it in place). -/
structure TxOut where
  sta : xym_sta
  sess : xym_session
  buff : List Nat
  env : Env

/-- Frame size selection (size > 128 selects the 1024-byte frame). -/
def frameSize (size : Nat) : Nat :=
  if XYM_PKT_SIZE_128 < size then XYM_PKT_SIZE_1024 else XYM_PKT_SIZE_128

/-- EOT loop of xmodem_transmit, xymodem.c lines 241-256. -/
def xm_tx_eot_loop : Nat → xym_session → Nat → Env → Option (xym_sta × xym_session × Env)
  | 0, _, _, _ => none
  | fuel+1, p, retry, e =>
    if retry ≤ p.error_max_retry then
      match e.doSend [EOT] with
      | (ok, e) =>
      if ok = false then xm_tx_eot_loop fuel p ((retry + 1) % 256) e
      else
      match e.doRecv 1 with
      | (none, e) => xm_tx_eot_loop fuel p ((retry + 1) % 256) e
      | (some r, e) =>
        let p := { p with reply_msg := r.headD 0 }
        if p.reply_msg = ACK then some (XYM_END, p, e)
        else xm_tx_eot_loop fuel p ((retry + 1) % 256) e
    else
      match xymodem_active_cancel p e with
      | (_, e2) => some (XYM_ERROR_RETRANS, p, e2)

/-- Handshake loop of xmodem_transmit, xymodem.c lines 261-292.
Sum.inl is a return from inside the loop, Sum.inr falls out of the loop
with the final retry counter. -/
def xm_tx_handshake_loop : Nat → xym_session → Nat → Env →
    Option ((xym_sta × xym_session × Env) ⊕ (xym_session × Nat × Env))
  | 0, _, _, _ => none
  | fuel+1, p, retry, e =>
    if p.handshake = 0 ∧ retry ≤ p.error_max_retry then
      match e.doRecv 1 with
      | (none, e) => xm_tx_handshake_loop fuel p ((retry + 1) % 256) e
      | (some r, e) =>
        let p := { p with reply_msg := r.headD 0 }
        if p.reply_msg = CRC16_FLAG then
          xm_tx_handshake_loop fuel { p with crc_flag := 1, handshake := 1 } retry e
        else if p.reply_msg = NAK then
          xm_tx_handshake_loop fuel { p with crc_flag := 0, handshake := 1 } retry e
        else if p.reply_msg = CANCEL then
          match e.doRecv 1 with
          | (some r2, e) =>
            let p := { p with reply_msg := r2.headD 0 }
            if p.reply_msg = CANCEL then some (.inl (XYM_CANCEL_REMOTE, p, e))
            else
              match xymodem_active_cancel p e with
              | (_, e2) => some (.inl (XYM_ERROR_INVALID_DATA, p, e2))
          | (none, e) =>
            match xymodem_active_cancel p e with
            | (_, e2) => some (.inl (XYM_ERROR_INVALID_DATA, p, e2))
        else
          match xymodem_active_cancel p e with
          | (_, e2) => some (.inl (XYM_ERROR_INVALID_DATA, p, e2))
    else some (.inr (p, retry, e))

/-- Packet send loop of xmodem_transmit, xymodem.c lines 314-357. -/
def xm_tx_send_loop : Nat → xym_session → List Nat → List Nat → List Nat → Nat → Env →
    Option (xym_sta × xym_session × Env)
  | 0, _, _, _, _, _, _ => none
  | fuel+1, p, hdr, data, tl, retry, e =>
    if retry ≤ p.error_max_retry then
      match e.doSend hdr with
      | (ok, e) =>
      if ok = false then xm_tx_send_loop fuel p hdr data tl ((retry + 1) % 256) e
      else
      match e.doSend data with
      | (ok, e) =>
      if ok = false then xm_tx_send_loop fuel p hdr data tl ((retry + 1) % 256) e
      else
      match e.doSend tl with
      | (ok, e) =>
      if ok = false then xm_tx_send_loop fuel p hdr data tl ((retry + 1) % 256) e
      else
      match e.doRecv 1 with
      | (none, e) => xm_tx_send_loop fuel p hdr data tl ((retry + 1) % 256) e
      | (some r, e) =>
        let p := { p with reply_msg := r.headD 0 }
        if p.reply_msg = ACK then
          some (XYM_OK, { p with seqno := (p.seqno + 1) % 4294967296 }, e)
        else if p.reply_msg = NAK ∨ p.reply_msg = CRC16_FLAG then
          xm_tx_send_loop fuel p hdr data tl ((retry + 1) % 256) e
        else if p.reply_msg = CANCEL then
          match e.doRecv 1 with
          | (some r2, e) =>
            let p := { p with reply_msg := r2.headD 0 }
            if p.reply_msg = CANCEL then some (XYM_CANCEL_REMOTE, p, e)
            else
              match xymodem_active_cancel p e with
              | (_, e2) => some (XYM_ERROR_INVALID_DATA, p, e2)
          | (none, e) =>
            match xymodem_active_cancel p e with
            | (_, e2) => some (XYM_ERROR_INVALID_DATA, p, e2)
        else
          match xymodem_active_cancel p e with
          | (_, e2) => some (XYM_ERROR_INVALID_DATA, p, e2)
    else
      match xymodem_active_cancel p e with
      | (_, e2) => some (XYM_ERROR_RETRANS, p, e2)

/-- xmodem_transmit, xymodem.c lines 229-360: size == 0 sends EOT;
otherwise handshake (if not yet done), packet build with 0x1A padding of
the caller buffer, then the send loop. -/
def xmodem_transmit (fuel : Nat) (p : xym_session) (buff : List Nat) (size : Nat)
    (e : Env) : Option TxOut :=
  if size = 0 then
    (xm_tx_eot_loop fuel p 0 e).map fun r => ⟨r.1, r.2.1, buff, r.2.2⟩
  else
    match xm_tx_handshake_loop fuel p 0 e with
    | none => none
    | some (.inl r) => some ⟨r.1, r.2.1, buff, r.2.2⟩
    | some (.inr (p2, retry, e2)) =>
      if p2.error_max_retry < retry then
        match xymodem_active_cancel p2 e2 with
        | (_, e3) => some ⟨XYM_ERROR_RETRANS, p2, buff, e3⟩
      else
        let pkt := frameSize size
        let h1 := p2.seqno % 256
        let hdr := [if pkt = XYM_PKT_SIZE_128 then SOH else STX, h1, 255 - h1]
        let buff2 := if size ≠ pkt then
            buff.take size ++ List.replicate (pkt - size) CTRLZ ++ buff.drop pkt
          else buff
        let chk := xymodem_verify_data p2 (buff2.take pkt)
        let tl := if p2.crc_flag ≠ 0 then [chk / 256 % 256, chk % 256] else [chk / 256 % 256]
        (xm_tx_send_loop fuel p2 hdr (buff2.take pkt) tl 0 e2).map
          fun r => ⟨r.1, r.2.1, buff2, r.2.2⟩

/-- EOT loop of ymodem_transmit, xymodem.c lines 538-568, with the
eot_flag debounce; the loop increment is retry += (eot_flag != 1) ? 1 : 0
evaluated after the body. -/
def ym_tx_eot_loop : Nat → xym_session → Nat → Nat → Env →
    Option ((xym_sta × xym_session × Env) ⊕ (xym_session × Nat × Env))
  | 0, _, _, _, _ => none
  | fuel+1, p, eotf, retry, e =>
    if retry ≤ p.error_max_retry then
      match e.doSend [EOT] with
      | (ok, e) =>
      if ok = false then
        let eotf := if eotf ≠ 0 then (eotf + 1) % 256 else eotf
        ym_tx_eot_loop fuel p eotf (if eotf ≠ 1 then (retry + 1) % 256 else retry) e
      else
      match e.doRecv 1 with
      | (none, e) =>
        let eotf := if eotf ≠ 0 then (eotf + 1) % 256 else eotf
        ym_tx_eot_loop fuel p eotf (if eotf ≠ 1 then (retry + 1) % 256 else retry) e
      | (some r, e) =>
        let p := { p with reply_msg := r.headD 0 }
        if p.reply_msg = NAK then
          let eotf := (eotf + 1) % 256
          ym_tx_eot_loop fuel p eotf (if eotf ≠ 1 then (retry + 1) % 256 else retry) e
        else if p.reply_msg = ACK then
          some (.inl (XYM_FIL_SET, { p with handshake := 0, seqno := 0 }, e))
        else
          ym_tx_eot_loop fuel p eotf (if eotf ≠ 1 then (retry + 1) % 256 else retry) e
    else some (.inr (p, retry, e))

/-- Handshake loop of ymodem_transmit, xymodem.c lines 577-606: only the
CRC16 request is accepted; NAK, ACK and anything else cancel the
session.  Sum.inr carries the f_pkt_flag along with the retry count. -/
def ym_tx_handshake_loop : Nat → xym_session → Nat → Nat → Env →
    Option ((xym_sta × xym_session × Env) ⊕ (xym_session × Nat × Nat × Env))
  | 0, _, _, _, _ => none
  | fuel+1, p, fpk, retry, e =>
    if p.handshake = 0 ∧ retry ≤ p.error_max_retry then
      match e.doRecv 1 with
      | (none, e) => ym_tx_handshake_loop fuel p fpk ((retry + 1) % 256) e
      | (some r, e) =>
        let p := { p with reply_msg := r.headD 0 }
        if p.reply_msg = CRC16_FLAG then
          ym_tx_handshake_loop fuel { p with crc_flag := 1, handshake := 1 } 1 retry e
        else if p.reply_msg = CANCEL then
          match e.doRecv 1 with
          | (some r2, e) =>
            let p := { p with reply_msg := r2.headD 0 }
            if p.reply_msg = CANCEL then some (.inl (XYM_CANCEL_REMOTE, p, e))
            else
              match xymodem_active_cancel p e with
              | (_, e2) => some (.inl (XYM_ERROR_INVALID_DATA, p, e2))
          | (none, e) =>
            match xymodem_active_cancel p e with
            | (_, e2) => some (.inl (XYM_ERROR_INVALID_DATA, p, e2))
        else
          match xymodem_active_cancel p e with
          | (_, e2) => some (.inl (XYM_ERROR_INVALID_DATA, p, e2))
    else some (.inr (p, fpk, retry, e))

/-- Packet send loop of ymodem_transmit, xymodem.c lines 628-675.  On
ACK for the sequence-0 packet with f_pkt_flag set, handshake is cleared
before the sequence increment; the status is XYM_OK for size > 0 and
XYM_END for the zero-size header. -/
def ym_tx_send_loop : Nat → xym_session → Nat → Nat → List Nat → List Nat → List Nat →
    Nat → Env → Option (xym_sta × xym_session × Env)
  | 0, _, _, _, _, _, _, _, _ => none
  | fuel+1, p, fpk, size, hdr, data, tl, retry, e =>
    if retry ≤ p.error_max_retry then
      match e.doSend hdr with
      | (ok, e) =>
      if ok = false then ym_tx_send_loop fuel p fpk size hdr data tl ((retry + 1) % 256) e
      else
      match e.doSend data with
      | (ok, e) =>
      if ok = false then ym_tx_send_loop fuel p fpk size hdr data tl ((retry + 1) % 256) e
      else
      match e.doSend tl with
      | (ok, e) =>
      if ok = false then ym_tx_send_loop fuel p fpk size hdr data tl ((retry + 1) % 256) e
      else
      match e.doRecv 1 with
      | (none, e) => ym_tx_send_loop fuel p fpk size hdr data tl ((retry + 1) % 256) e
      | (some r, e) =>
        let p := { p with reply_msg := r.headD 0 }
        if p.reply_msg = ACK then
          let p := if 0 < fpk ∧ p.seqno = 0 then { p with handshake := 0 } else p
          some (if 0 < size then XYM_OK else XYM_END,
                { p with seqno := (p.seqno + 1) % 4294967296 }, e)
        else if p.reply_msg = NAK ∨ p.reply_msg = CRC16_FLAG then
          ym_tx_send_loop fuel p fpk size hdr data tl ((retry + 1) % 256) e
        else if p.reply_msg = CANCEL then
          match e.doRecv 1 with
          | (some r2, e) =>
            let p := { p with reply_msg := r2.headD 0 }
            if p.reply_msg = CANCEL then some (XYM_CANCEL_REMOTE, p, e)
            else
              match xymodem_active_cancel p e with
              | (_, e2) => some (XYM_ERROR_INVALID_DATA, p, e2)
          | (none, e) =>
            match xymodem_active_cancel p e with
            | (_, e2) => some (XYM_ERROR_INVALID_DATA, p, e2)
        else
          match xymodem_active_cancel p e with
          | (_, e2) => some (XYM_ERROR_INVALID_DATA, p, e2)
    else
      match xymodem_active_cancel p e with
      | (_, e2) => some (XYM_ERROR_RETRANS, p, e2)

/-- Handshake, packet build (padding with 0x1A for data, 0x00 for the
zero-size header packet) and send phases of ymodem_transmit,
xymodem.c lines 576-677. -/
def ymodem_transmit_after_eot (fuel : Nat) (p : xym_session) (buff : List Nat)
    (size : Nat) (e : Env) : Option TxOut :=
  match ym_tx_handshake_loop fuel p 0 0 e with
  | none => none
  | some (.inl r) => some ⟨r.1, r.2.1, buff, r.2.2⟩
  | some (.inr (p2, fpk, retry, e2)) =>
    if p2.error_max_retry < retry then
      match xymodem_active_cancel p2 e2 with
      | (_, e3) => some ⟨XYM_ERROR_RETRANS, p2, buff, e3⟩
    else
      let pkt := frameSize size
      let h1 := p2.seqno % 256
      let hdr := [if pkt = XYM_PKT_SIZE_128 then SOH else STX, h1, 255 - h1]
      let buff2 := if size ≠ pkt then
          buff.take size ++ List.replicate (pkt - size) (if 0 < size then CTRLZ else 0)
            ++ buff.drop pkt
        else buff
      let chk := xymodem_verify_data p2 (buff2.take pkt)
      let tl := if p2.crc_flag ≠ 0 then [chk / 256 % 256, chk % 256] else [chk / 256 % 256]
      (ym_tx_send_loop fuel p2 fpk size hdr (buff2.take pkt) tl 0 e2).map
        fun r => ⟨r.1, r.2.1, buff2, r.2.2⟩

/-- ymodem_transmit, xymodem.c lines 524-678: size == 0 while mid-file
(handshake > 0) first runs the double-EOT exchange. -/
def ymodem_transmit (fuel : Nat) (p : xym_session) (buff : List Nat) (size : Nat)
    (e : Env) : Option TxOut :=
  if size = 0 ∧ 0 < p.handshake then
    match ym_tx_eot_loop fuel p 0 0 e with
    | none => none
    | some (.inl r) => some ⟨r.1, r.2.1, buff, r.2.2⟩
    | some (.inr (p2, retry, e2)) =>
      if p2.error_max_retry < retry then
        match xymodem_active_cancel p2 e2 with
        | (_, e3) => some ⟨XYM_ERROR_RETRANS, p2, buff, e3⟩
      else ymodem_transmit_after_eot fuel p2 buff size e2
  else ymodem_transmit_after_eot fuel p buff size e

set_option maxRecDepth 100000

/-- Environment constructor for concrete transport oracles. -/
def mkEnv (s : Nat → Bool) (r : Nat → Option (List Nat)) : Env := ⟨s, r, 0, 0, []⟩

/-- Observable view of a receive result: status, session handshake,
crc_flag, reply_msg, seqno, the *size output and the send trace. -/
structure RView where
  sta : xym_sta
  hs : Nat
  crc : Nat
  reply : Nat
  seq : Nat
  size : Nat
  tr : List (List Nat × Bool)
deriving DecidableEq, Repr

def rv (o : RunOut) : RView :=
  ⟨o.sta, o.sess.handshake, o.sess.crc_flag, o.sess.reply_msg, o.sess.seqno, o.size, o.env.tr⟩

/-- Observable view of a transmit result. -/
structure TView where
  sta : xym_sta
  hs : Nat
  seq : Nat
  buff : List Nat
  tr : List (List Nat × Bool)
deriving DecidableEq, Repr

def tv (o : TxOut) : TView := ⟨o.sta, o.sess.handshake, o.sess.seqno, o.buff, o.env.tr⟩

/-- The per-byte step of the software CRC. -/
def crcStepFn : Nat → Nat → Nat := fun r b => crc16_bits 8 ((r ^^^ ((b % 256) <<< 8)) % 65536)

/-- CRC continuation from an arbitrary intermediate remainder, used to
evaluate the software CRC of long concrete payloads chunk by chunk. -/
def crcExt (r : Nat) (data : List Nat) : Nat := data.foldl crcStepFn r

theorem crc16_soft_eq_crcExt (data : List Nat) : crc16_soft data = crcExt 0 data := rfl

theorem crcExt_append (r : Nat) (xs ys : List Nat) :
    crcExt r (xs ++ ys) = crcExt (crcExt r xs) ys := by
  simp [crcExt, List.foldl_append]

theorem crcExt_zeros : ∀ n : Nat, crcExt 0 (List.replicate n 0) = 0 := by
  intro n
  induction n with
  | zero => rfl
  | succ n ih =>
    have h0 : crcStepFn 0 0 = 0 := by decide
    simpa [crcExt, List.replicate_succ, crcStepFn] using ih

theorem crc16_soft_zeros (n : Nat) : crc16_soft (List.replicate n 0) = 0 := by
  rw [crc16_soft_eq_crcExt, crcExt_zeros]

/-- Behaviour of active cancel when every send succeeds: three CANCEL
bytes are handed to the transport and the call reports success. -/
theorem cancel_allok (p : xym_session) (e : Env) (hs : ∀ n, e.sendOk n = true) :
    xymodem_active_cancel p e =
      (XYM_CANCEL_ACTIVE,
       { e with si := e.si + 3,
                tr := e.tr ++ [([CANCEL], true), ([CANCEL], true), ([CANCEL], true)] }) := by
  have h0 : (0:Nat) ≤ p.error_max_retry := Nat.zero_le _
  simp [xymodem_active_cancel, xymodem_active_cancel_loop, Env.doSend, hs, h0]

/-- Behaviour of active cancel when every send fails: min 3 (max+1)
CANCEL attempts are made, each recorded as a failure. -/
theorem cancel_allfail (p : xym_session) (e : Env) (hs : ∀ n, e.sendOk n = false) :
    xymodem_active_cancel p e =
      ((if 3 ≤ p.error_max_retry then XYM_CANCEL_ACTIVE else XYM_ERROR_HW),
       { e with si := e.si + min 3 (p.error_max_retry + 1),
                tr := e.tr ++ List.replicate (min 3 (p.error_max_retry + 1)) ([CANCEL], false) }) := by
  rcases p with ⟨st, rt, mr, hsk, cf, rm, sq, a, b, c⟩
  match mr with
  | 0 => simp [xymodem_active_cancel, xymodem_active_cancel_loop, Env.doSend, hs]
  | 1 => simp [xymodem_active_cancel, xymodem_active_cancel_loop, Env.doSend, hs]
  | 2 => simp [xymodem_active_cancel, xymodem_active_cancel_loop, Env.doSend, hs]
  | n+3 =>
    have h1 : (1:Nat) ≤ n + 3 := by omega
    have h2 : (2:Nat) ≤ n + 3 := by omega
    have h3 : min 3 (n + 3 + 1) = 3 := by omega
    simp [xymodem_active_cancel, xymodem_active_cancel_loop, Env.doSend, hs, h1, h2, h3,
      Nat.le_add_left]

/-- Checksum-mode test session (crc_flag = 0, no hardware CRC). -/
def chkSession : xym_session := ⟨0, 0, 0, 0, 0, 0, 0, none, none, none⟩

/-- CRC-mode test session (crc_flag = 1, no hardware CRC). -/
def crcSession : xym_session := ⟨0, 0, 0, 0, 1, 0, 0, none, none, none⟩

/-- Claim C1 (code_bug evidence): the claim states that in checksum mode
xymodem_verify_data returns the 8-bit modular sum of the payload zero
extended to 16 bits, i.e. a value in 0..255 equal to the sum mod 256.
On the 128-byte payload of 0xFF bytes the code returns 32640 = 0x7F80,
the 16-bit modular sum, not 128 = sum mod 256: the uint16 accumulator in
xymodem.c line 692/701 never truncates to 8 bits.  The CRC half of the
claim does hold: CRC16 of the bytes of the string 123456789 is 0x31C3
and CRC16 of the empty payload is 0. -/
theorem C1_verify_checksum_failing_input :
    xymodem_verify_data chkSession (List.replicate 128 255) = 32640 ∧
    (List.replicate 128 255).foldl (· + ·) 0 % 256 = 128 ∧
    xymodem_verify_data chkSession (List.replicate 128 255) ≠ 128 ∧
    xymodem_verify_data crcSession [49, 50, 51, 52, 53, 54, 55, 56, 57] = 0x31C3 ∧
    xymodem_verify_data crcSession [] = 0 :=
  ⟨by decide, by decide, by decide, by decide, rfl⟩

/-- Claim C9: xymodem_session_init rejects a NULL session, send or recv
callback with XYM_ERROR_INVALID_DATA and leaves the session untouched;
otherwise it zeroes the whole session state (handshake, crc_flag,
reply_msg, seqno all 0), stores the callbacks (crc16 may be NULL) and
the three configuration parameters and returns XYM_OK.  The fresh
reply_msg 0 is neither of the handshake request bytes, and only
xmodem_init / ymodem_init establish the polling state (reply_msg = 'C',
seqno = 1 resp. 0). -/
theorem C9_session_init (s : xym_session) (scb rcb : Option Nat)
    (c16 : Option (List Nat → Nat)) (st rt mr : Nat) :
    (xymodem_session_init none scb rcb c16 st rt mr = (XYM_ERROR_INVALID_DATA, none)) ∧
    (scb = none →
      xymodem_session_init (some s) scb rcb c16 st rt mr = (XYM_ERROR_INVALID_DATA, some s)) ∧
    (rcb = none →
      xymodem_session_init (some s) scb rcb c16 st rt mr = (XYM_ERROR_INVALID_DATA, some s)) ∧
    (scb.isSome → rcb.isSome →
      xymodem_session_init (some s) scb rcb c16 st rt mr =
        (XYM_OK, some ⟨st, rt, mr, 0, 0, 0, 0, scb, rcb, c16⟩)) ∧
    ((0:Nat) ≠ CRC16_FLAG ∧ (0:Nat) ≠ NAK) ∧
    (xmodem_init ⟨st, rt, mr, 0, 0, 0, 0, scb, rcb, c16⟩ =
      ⟨st, rt, mr, 0, 1, CRC16_FLAG, 1, scb, rcb, c16⟩) ∧
    (ymodem_init ⟨st, rt, mr, 0, 0, 0, 0, scb, rcb, c16⟩ =
      ⟨st, rt, mr, 0, 1, CRC16_FLAG, 0, scb, rcb, c16⟩) := by
  refine ⟨by simp [xymodem_session_init], ?_, ?_, ?_, by decide,
    by simp [xmodem_init, CRC16_FLAG], by simp [ymodem_init, CRC16_FLAG]⟩
  · intro h; simp [xymodem_session_init, h]
  · intro h; simp [xymodem_session_init, h]
  · intro h1 h2; simp [xymodem_session_init, h1, h2]

/-- Witness for C9 at concrete inputs. -/
theorem C9_session_init_witness :
    xymodem_session_init (some ⟨9, 9, 9, 1, 1, 6, 77, none, none, none⟩)
        (some 5) (some 7) none 11 22 33 =
      (XYM_OK, some ⟨11, 22, 33, 0, 0, 0, 0, some 5, some 7, none⟩) :=
  (C9_session_init ⟨9, 9, 9, 1, 1, 6, 77, none, none, none⟩
    (some 5) (some 7) none 11 22 33).2.2.2.1 rfl rfl

/-- Number of failed entries in a send trace. -/
def failCount (l : List (List Nat × Bool)) : Nat := l.countP (fun x => !x.2)

/-- The trace entries appended by one active-cancel call. -/
def cancelNewTrace (p : xym_session) (e : Env) : List (List Nat × Bool) :=
  (xymodem_active_cancel p e).2.tr.drop e.tr.length

/-- Session with error_max_retry = 0 used for the C8 counterexample. -/
def c8Session : xym_session := ⟨0, 0, 0, 0, 0, 0, 0, none, none, none⟩

/-- Transport for the C8 counterexample: the first send succeeds, every
later send fails. -/
def c8Env : Env := mkEnv (fun n => n == 0) (fun _ => none)

/-- Claim C8 (counterexample): with error_max_retry = 0 and a transport
whose first send succeeds and second send fails, one CANCEL byte is
successfully transmitted, yet xymodem_active_cancel returns
XYM_ERROR_HW, contradicting the claim that at least one successfully
transmitted CANCEL always yields XYM_CANCEL_ACTIVE. -/
theorem C8_counterexample :
    (xymodem_active_cancel c8Session c8Env).1 = XYM_ERROR_HW ∧
    (xymodem_active_cancel c8Session c8Env).2.tr = [([CANCEL], true), ([CANCEL], false)] ∧
    XYM_ERROR_HW ≠ XYM_CANCEL_ACTIVE := by
  refine ⟨by decide, by decide, by decide⟩

/-- Claim C8 (amended): xymodem_active_cancel attempts at most 3 sends,
every attempted send carries the CANCEL byte, it returns
XYM_CANCEL_ACTIVE exactly when the cumulative send failures stay within
error_max_retry (regardless of how many CANCELs were actually
transmitted), XYM_ERROR_HW only when at least one send failed, it stops
before the third attempt only when the failures already exceed the
budget, and when every send succeeds it transmits exactly 3 CANCELs and
reports XYM_CANCEL_ACTIVE. -/
theorem C8_amended (p : xym_session) (e : Env) :
    (cancelNewTrace p e).length ≤ 3 ∧
    (∀ x ∈ cancelNewTrace p e, x.1 = [CANCEL]) ∧
    ((xymodem_active_cancel p e).1 = XYM_CANCEL_ACTIVE ↔
       failCount (cancelNewTrace p e) ≤ p.error_max_retry) ∧
    ((xymodem_active_cancel p e).1 = XYM_ERROR_HW → 0 < failCount (cancelNewTrace p e)) ∧
    ((cancelNewTrace p e).length < 3 →
       failCount (cancelNewTrace p e) = p.error_max_retry + 1) ∧
    ((∀ n, e.sendOk n = true) →
       xymodem_active_cancel p e =
         (XYM_CANCEL_ACTIVE,
          { e with si := e.si + 3,
                   tr := e.tr ++ [([CANCEL], true), ([CANCEL], true), ([CANCEL], true)] })) := by
  refine ⟨?_, ?_, ?_, ?_, ?_, cancel_allok p e⟩ <;>
  · obtain ⟨st, rt, mr, hsk, cf, rm, sq, a, b, c⟩ := p
    cases hb1 : e.sendOk e.si <;> cases hb2 : e.sendOk (e.si+1) <;>
      cases hb3 : e.sendOk (e.si+2) <;>
      by_cases h1 : 1 ≤ mr <;> by_cases h2 : 2 ≤ mr <;> by_cases h3 : 3 ≤ mr <;>
        simp [xymodem_active_cancel, xymodem_active_cancel_loop, Env.doSend, cancelNewTrace,
          failCount, List.drop_left, hb1, hb2, hb3, h1, h2, h3] <;> omega

/-- Witness for C8_amended: concrete session and transport where the
XYM_ERROR_HW premise holds. -/
theorem C8_amended_witness : 0 < failCount (cancelNewTrace c8Session c8Env) :=
  (C8_amended c8Session c8Env).2.2.2.1 (by decide)

/-- Claim C10: xmodem_transmit and ymodem_transmit pad the caller's
buffer in place.  For 0 < size < frame (frame = 128 for size <= 128,
else 1024) the bytes buff[size..frame-1] are overwritten with 0x1A while
the first size bytes are untouched; a ymodem_transmit header packet
(size == 0, fresh handshake answered by the 'C' request) pads the whole
128-byte frame with 0x00.  Hence the caller's buffer must hold the full
frame even when size is smaller. -/
theorem C10_transmit_padding (p q : xym_session) (buff buffh : List Nat) (size fuel : Nat)
    (e eh : Env) (hp : p.handshake ≠ 0) (hq : q.handshake = 0)
    (hsz : 0 < size) (hlt : size < frameSize size) (hbl : frameSize size ≤ buff.length)
    (hrecv : eh.recvRes eh.ri = some [0x43]) :
    (∀ out, xmodem_transmit fuel p buff size e = some out →
       out.buff = buff.take size ++ List.replicate (frameSize size - size) CTRLZ
                  ++ buff.drop (frameSize size) ∧
       out.buff.take size = buff.take size) ∧
    (∀ out, ymodem_transmit fuel p buff size e = some out →
       out.buff = buff.take size ++ List.replicate (frameSize size - size) CTRLZ
                  ++ buff.drop (frameSize size) ∧
       out.buff.take size = buff.take size) ∧
    (∀ out, ymodem_transmit fuel q buffh 0 eh = some out →
       out.buff = List.replicate 128 0 ++ buffh.drop 128) := by
  have hne : size ≠ frameSize size := Nat.ne_of_lt hlt
  have htk : (buff.take size ++ (List.replicate (frameSize size - size) CTRLZ
      ++ buff.drop (frameSize size))).take size = buff.take size := by
    rw [List.take_append_of_le_length]
    · simp
    · simp; omega
  refine ⟨?_, ?_, ?_⟩
  · intro out h
    match fuel with
    | 0 => simp [xmodem_transmit, xm_tx_handshake_loop, Nat.pos_iff_ne_zero.mp hsz] at h
    | f+1 =>
      rw [xmodem_transmit] at h
      rw [if_neg (by omega)] at h
      rw [xm_tx_handshake_loop] at h
      rw [if_neg (by simp [hp])] at h
      simp only [Nat.not_lt_zero, if_false] at h
      obtain ⟨r, hr, rfl⟩ := Option.map_eq_some'.mp h
      simpa [hne] using htk
  · intro out h
    match fuel with
    | 0 =>
      simp [ymodem_transmit, ymodem_transmit_after_eot, ym_tx_handshake_loop,
        Nat.pos_iff_ne_zero.mp hsz] at h
    | f+1 =>
      rw [ymodem_transmit] at h
      rw [if_neg (by omega)] at h
      rw [ymodem_transmit_after_eot] at h
      rw [ym_tx_handshake_loop] at h
      rw [if_neg (by simp [hp])] at h
      simp only [Nat.not_lt_zero, if_false] at h
      obtain ⟨r, hr, rfl⟩ := Option.map_eq_some'.mp h
      simpa [hne, hsz] using htk
  · intro out h
    match fuel with
    | 0 =>
      simp [ymodem_transmit, ymodem_transmit_after_eot, ym_tx_handshake_loop, hq] at h
    | 1 =>
      rw [ymodem_transmit] at h
      rw [if_neg (by simp [hq])] at h
      rw [ymodem_transmit_after_eot] at h
      rw [ym_tx_handshake_loop] at h
      rw [if_pos ⟨hq, Nat.zero_le _⟩] at h
      simp [Env.doRecv, hrecv, CRC16_FLAG, ym_tx_handshake_loop] at h
    | f+2 =>
      rw [ymodem_transmit] at h
      rw [if_neg (by simp [hq])] at h
      rw [ymodem_transmit_after_eot] at h
      rw [ym_tx_handshake_loop] at h
      rw [if_pos ⟨hq, Nat.zero_le _⟩] at h
      rw [show (Env.doRecv eh 1) = (some [0x43], { eh with ri := eh.ri + 1 }) by
        simp [Env.doRecv, hrecv]] at h
      simp only [List.headD, CRC16_FLAG] at h
      simp [ym_tx_handshake_loop, frameSize, XYM_PKT_SIZE_128, XYM_PKT_SIZE_1024] at h
      obtain ⟨a, b, c, hr, hout⟩ := h
      rw [← hout]
      simp

/-- xmodem transmit witness session: handshake already done, budget 0. -/
def c10xSession : xym_session := ⟨0, 0, 0, 1, 1, ACK, 1, none, none, none⟩

/-- ymodem header witness session: fresh handshake, budget 0. -/
def c10ySession : xym_session := ⟨0, 0, 0, 0, 1, CRC16_FLAG, 0, none, none, none⟩

/-- Transport whose sends always fail (and recvs always time out). -/
def c10failEnv : Env := mkEnv (fun _ => false) (fun _ => none)

/-- Transport answering the first recv with the 'C' CRC request; all
sends fail. -/
def c10hsEnv : Env := mkEnv (fun _ => false) (fun n => if n == 0 then some [0x43] else none)

/-- Witness for C10 at concrete inputs: a 5-byte xmodem payload is
padded to 128 bytes of 0x1A, and a ymodem zero-size header is padded to
128 bytes of 0x00. -/
theorem C10_transmit_padding_witness :
    (xmodem_transmit 2 c10xSession (List.range 130) 5 c10failEnv).map TxOut.buff =
      some ((List.range 130).take 5 ++ List.replicate 123 CTRLZ ++ (List.range 130).drop 128) ∧
    (ymodem_transmit 3 c10ySession [] 0 c10hsEnv).map TxOut.buff =
      some (List.replicate 128 0) := by
  constructor
  · have hs : (xmodem_transmit 2 c10xSession (List.range 130) 5 c10failEnv).isSome = true := rfl
    obtain ⟨out, hout⟩ := Option.isSome_iff_exists.mp hs
    have hb := (C10_transmit_padding c10xSession c10ySession (List.range 130) [] 5 2
      c10failEnv c10hsEnv (by decide) rfl (by decide) (by decide) (by decide) rfl).1 out hout
    rw [hout, Option.map_some']
    rw [hb.1]
    simp [frameSize, XYM_PKT_SIZE_128, XYM_PKT_SIZE_1024]
  · have hs : (ymodem_transmit 3 c10ySession [] 0 c10hsEnv).isSome = true := rfl
    obtain ⟨out, hout⟩ := Option.isSome_iff_exists.mp hs
    have hb := (C10_transmit_padding c10xSession c10ySession (List.range 130) [] 5 3
      c10failEnv c10hsEnv (by decide) rfl (by decide) (by decide) (by decide) rfl).2.2 out hout
    rw [hout, Option.map_some']
    rw [hb]
    simp

/-- Ymodem receiver waiting for the header packet: fresh per-file
handshake (handshake = 0, reply = 'C'), sequence 0, retry budget 0. -/
def c5Session : xym_session := ⟨0, 0, 0, 0, 1, CRC16_FLAG, 0, none, none, none⟩

/-- Transport delivering one well-formed sequence-0 packet: SOH, the
sequence pair 00/FF, the payload P and the two verification bytes. -/
def c5Env (P : List Nat) (t0 t1 : Nat) : Env := mkEnv (fun _ => true)
  (fun n => match n with
   | 0 => some [SOH] | 1 => some [0, 255] | 2 => some P | 3 => some [t0, t1] | _ => none)

/-- Software CRC of the header payload used in the C5 witness, computed
in chunks of at most 32 bytes. -/
theorem c5crcB : crc16_soft (65 :: List.replicate 127 0) = 21299 := by
  have h : (65 :: List.replicate 127 0) =
      [65] ++ (List.replicate 32 0 ++ (List.replicate 32 0 ++
        (List.replicate 32 0 ++ List.replicate 31 0))) := by decide
  rw [crc16_soft_eq_crcExt, h, crcExt_append, crcExt_append, crcExt_append, crcExt_append]
  rw [show crcExt 0 [65] = 22757 from by decide]
  rw [show crcExt 22757 (List.replicate 32 0) = 61149 from by decide]
  rw [show crcExt 61149 (List.replicate 32 0) = 42892 from by decide]
  rw [show crcExt 42892 (List.replicate 32 0) = 17471 from by decide]
  decide

/-- Claim C5: when a validated packet arrives with expected sequence 0
in ymodem_receive, an all-zero header (first name byte 0, verification
bytes 0) is ACKed and the call returns the terminal XYM_END without
consuming the sequence number; a header with a non-empty name is
delivered with XYM_FIL_GET, *size = 128, and the session handshake flag
is cleared (so the next poll redoes the per-file handshake) while the
sequence advances to 1 and the pending reply is ACK. -/
theorem C5_header_packet (P : List Nat) (t0 t1 : Nat) (hP : P.length = 128)
    (hb : P.map (fun b => b % 256) = P) (ht0 : t0 < 256) (ht1 : t1 < 256) :
    (P.headD 0 = 0 → t0 = 0 → t1 = 0 → crc16_soft P = 0 →
      (ymodem_receive 1 c5Session [] (c5Env P t0 t1)).map rv =
        some ⟨XYM_END, 1, 1, ACK, 0, 0, [([CRC16_FLAG], true), ([ACK], true)]⟩) ∧
    (P.headD 0 ≠ 0 → word16 t0 t1 = crc16_soft P →
      (ymodem_receive 1 c5Session [] (c5Env P t0 t1)).map rv =
        some ⟨XYM_FIL_GET, 0, 1, ACK, 1, 128, [([CRC16_FLAG], true)]⟩ ∧
      (ymodem_receive 1 c5Session [] (c5Env P t0 t1)).map RunOut.buff = some P) := by
  have ht : (P ++ List.replicate 128 0).take 128 = P := by
    rw [← hP]; exact List.take_left P _
  have hm0 : t0 % 256 = t0 := Nat.mod_eq_of_lt ht0
  have hm1 : t1 % 256 = t1 := Nat.mod_eq_of_lt ht1
  constructor
  · intro h0 e0 e1 hc
    subst e0; subst e1
    have h0' : P.head?.getD 0 = 0 := by simpa [List.headD_eq_head?] using h0
    unfold ymodem_receive
    simp +decide [-List.reduceReplicate, ymodem_receive_loop, ymodem_receive_step,
      Env.doSend, Env.doRecv, c5Env, mkEnv, c5Session, xymodem_verify_data, hb, ht, hc, h0', rv,
      SOH, STX, EOT, ACK, NAK, CANCEL, CRC16_FLAG, XYM_PKT_SIZE_128, XYM_PKT_SIZE_1024, word16]
  · intro hne hw
    have hne' : ¬ P.head?.getD 0 = 0 := by simpa [List.headD_eq_head?] using hne
    have hw' : t0 <<< 8 ||| t1 = crc16_soft P := hw
    unfold ymodem_receive
    simp +decide [-List.reduceReplicate, ymodem_receive_loop, ymodem_receive_step,
      Env.doSend, Env.doRecv, c5Env, mkEnv, c5Session, xymodem_verify_data, hb, ht, hm0, hm1,
      hw', hne', rv,
      SOH, STX, EOT, ACK, NAK, CANCEL, CRC16_FLAG, XYM_PKT_SIZE_128, XYM_PKT_SIZE_1024, word16]

/-- Witness for C5: the all-zero header ends the batch with XYM_END; a
header starting with the byte 65 is delivered as XYM_FIL_GET with the
handshake flag cleared. -/
theorem C5_header_packet_witness :
    ((ymodem_receive 1 c5Session [] (c5Env (List.replicate 128 0) 0 0)).map rv =
        some ⟨XYM_END, 1, 1, ACK, 0, 0, [([CRC16_FLAG], true), ([ACK], true)]⟩) ∧
    ((ymodem_receive 1 c5Session [] (c5Env (65 :: List.replicate 127 0) 83 51)).map rv =
        some ⟨XYM_FIL_GET, 0, 1, ACK, 1, 128, [([CRC16_FLAG], true)]⟩) := by
  constructor
  · exact (C5_header_packet (List.replicate 128 0) 0 0 (by simp) (by simp) (by decide)
      (by decide)).1 rfl rfl rfl (crc16_soft_zeros 128)
  · exact ((C5_header_packet (65 :: List.replicate 127 0) 83 51 (by simp) (by simp)
      (by decide) (by decide)).2 (by decide) (by rw [c5crcB]; decide)).1

/-- Mid-session receiver (handshake done, CRC mode, last reply ACK,
expecting packet 1) with retry budget 1. -/
def midSession : xym_session := ⟨0, 0, 1, 1, 1, ACK, 1, none, none, none⟩

/-- Scenario (a): the sequence-pair read times out, then a valid packet
follows. -/
def c7aEnv (P : List Nat) (t0 t1 : Nat) : Env := mkEnv (fun _ => true)
  (fun n => match n with
   | 0 => some [SOH] | 1 => none | 2 => some [SOH] | 3 => some [1, 254]
   | 4 => some P | 5 => some [t0, t1] | _ => none)

/-- Scenario (b): the payload read times out, then a valid packet
follows. -/
def c7bEnv (P : List Nat) (t0 t1 : Nat) : Env := mkEnv (fun _ => true)
  (fun n => match n with
   | 0 => some [SOH] | 1 => some [1, 254] | 2 => none | 3 => some [SOH]
   | 4 => some [1, 254] | 5 => some P | 6 => some [t0, t1] | _ => none)

/-- Scenario (c): the verification-byte read times out, then a valid
packet follows. -/
def c7cEnv (P : List Nat) (t0 t1 : Nat) : Env := mkEnv (fun _ => true)
  (fun n => match n with
   | 0 => some [SOH] | 1 => some [1, 254] | 2 => some P | 3 => none
   | 4 => some [SOH] | 5 => some [1, 254] | 6 => some P | 7 => some [t0, t1] | _ => none)

/-- Scenario (d): the complement byte c does not match the sequence
byte 1, then a valid packet follows. -/
def c7dEnv (P : List Nat) (t0 t1 cb : Nat) : Env := mkEnv (fun _ => true)
  (fun n => match n with
   | 0 => some [SOH] | 1 => some [1, cb] | 2 => some P | 3 => some [t0, t1]
   | 4 => some [SOH] | 5 => some [1, 254] | 6 => some P | 7 => some [t0, t1] | _ => none)

/-- Scenario (e): the verification bytes u0 u1 do not match the payload
CRC, then a valid packet follows. -/
def c7eEnv (P : List Nat) (t0 t1 u0 u1 : Nat) : Env := mkEnv (fun _ => true)
  (fun n => match n with
   | 0 => some [SOH] | 1 => some [1, 254] | 2 => some P | 3 => some [u0, u1]
   | 4 => some [SOH] | 5 => some [1, 254] | 6 => some P | 7 => some [t0, t1] | _ => none)

/-- Expected outcome of every C7 scenario: the malformed step was
answered with NAK and retried, the following valid packet is accepted
(XYM_OK, seqno 2, 128 bytes) and the trace holds exactly the initial
ACK and one NAK, never a CANCEL and never an invalid-data status. -/
def c7Expected : Option RView := some ⟨XYM_OK, 1, 1, ACK, 2, 128, [([ACK], true), ([NAK], true)]⟩

/-- Claim C7: in both receivers, after a recognized SOH every read
failure of the sequence pair, payload or verification bytes, every
complement mismatch and every verification mismatch set the pending
reply to NAK and retry within the budget; none of them surfaces as
XYM_ERROR_INVALID_DATA and none triggers active cancellation (the trace
holds no CANCEL byte and the call succeeds on the retried packet). -/
theorem C7_soft_failures_nak_retry (P : List Nat) (t0 t1 cb u0 u1 : Nat)
    (hP : P.length = 128) (hb : P.map (fun b => b % 256) = P)
    (ht0 : t0 < 256) (ht1 : t1 < 256) (hw : word16 t0 t1 = crc16_soft P)
    (hc : cb < 256) (hcne : cb ≠ 254)
    (hu0 : u0 < 256) (hu1 : u1 < 256) (hune : word16 u0 u1 ≠ crc16_soft P) :
    ((xmodem_receive 2 midSession [] (c7aEnv P t0 t1)).map rv = c7Expected) ∧
    ((xmodem_receive 2 midSession [] (c7bEnv P t0 t1)).map rv = c7Expected) ∧
    ((xmodem_receive 2 midSession [] (c7cEnv P t0 t1)).map rv = c7Expected) ∧
    ((xmodem_receive 2 midSession [] (c7dEnv P t0 t1 cb)).map rv = c7Expected) ∧
    ((xmodem_receive 2 midSession [] (c7eEnv P t0 t1 u0 u1)).map rv = c7Expected) ∧
    ((ymodem_receive 2 midSession [] (c7aEnv P t0 t1)).map rv = c7Expected) ∧
    ((ymodem_receive 2 midSession [] (c7bEnv P t0 t1)).map rv = c7Expected) ∧
    ((ymodem_receive 2 midSession [] (c7cEnv P t0 t1)).map rv = c7Expected) ∧
    ((ymodem_receive 2 midSession [] (c7dEnv P t0 t1 cb)).map rv = c7Expected) ∧
    ((ymodem_receive 2 midSession [] (c7eEnv P t0 t1 u0 u1)).map rv = c7Expected) := by
  have ht : (P ++ List.replicate 128 0).take 128 = P := by
    rw [← hP]; exact List.take_left P _
  have hm0 : t0 % 256 = t0 := Nat.mod_eq_of_lt ht0
  have hm1 : t1 % 256 = t1 := Nat.mod_eq_of_lt ht1
  have hmc : cb % 256 = cb := Nat.mod_eq_of_lt hc
  have hmu0 : u0 % 256 = u0 := Nat.mod_eq_of_lt hu0
  have hmu1 : u1 % 256 = u1 := Nat.mod_eq_of_lt hu1
  have hw' : t0 <<< 8 ||| t1 = crc16_soft P := hw
  have hune' : ¬ (u0 <<< 8 ||| u1 = crc16_soft P) := hune
  have hcomp : ¬ ((1:Nat) = 255 - cb) := by omega
  refine ⟨?_, ?_, ?_, ?_, ?_, ?_, ?_, ?_, ?_, ?_⟩ <;>
  · first
    | (unfold xmodem_receive
       simp +decide [-List.reduceReplicate, xmodem_receive_loop, xmodem_receive_step,
         Env.doSend, Env.doRecv, c7aEnv, c7bEnv, c7cEnv, c7dEnv, c7eEnv, mkEnv, midSession,
         xymodem_verify_data, hb, ht, hm0, hm1, hmc, hmu0, hmu1, hw', hune', hcomp, rv,
         c7Expected, SOH, STX, EOT, ACK, NAK, CANCEL, CRC16_FLAG,
         XYM_PKT_SIZE_128, XYM_PKT_SIZE_1024, word16])
    | (unfold ymodem_receive
       simp +decide [-List.reduceReplicate, ymodem_receive_loop, ymodem_receive_step,
         Env.doSend, Env.doRecv, c7aEnv, c7bEnv, c7cEnv, c7dEnv, c7eEnv, mkEnv, midSession,
         xymodem_verify_data, hb, ht, hm0, hm1, hmc, hmu0, hmu1, hw', hune', hcomp, rv,
         c7Expected, SOH, STX, EOT, ACK, NAK, CANCEL, CRC16_FLAG,
         XYM_PKT_SIZE_128, XYM_PKT_SIZE_1024, word16])

/-- Witness for C7 at a concrete payload and concrete mismatch bytes. -/
theorem C7_soft_failures_witness :
    (xmodem_receive 2 midSession [] (c7aEnv (List.replicate 128 0) 0 0)).map rv =
      c7Expected :=
  (C7_soft_failures_nak_retry (List.replicate 128 0) 0 0 7 0 1 (by simp) (by simp)
    (by decide) (by decide) (by rw [crc16_soft_zeros]; decide) (by decide) (by decide)
    (by decide) (by decide) (by rw [crc16_soft_zeros]; decide)).1

/-- Mid-session receiver with expected sequence s and retry budget mx. -/
def c2Session (mx s : Nat) : xym_session := ⟨0, 0, mx, 1, 1, ACK, s, none, none, none⟩

/-- Transport delivering one well-formed packet with sequence byte d,
complement 255 - d, an all-zero payload and its CRC 0; every later recv
times out. -/
def c2Env (d : Nat) : Env := mkEnv (fun _ => true)
  (fun n => match n with
   | 0 => some [SOH] | 1 => some [d, 255 - d] | 2 => some (List.replicate 128 0)
   | 3 => some [0, 0] | _ => none)

/-- Acceptance run: the packet carrying the expected low byte s mod 256
is accepted by xmodem_receive, delivering 128 bytes and advancing the
uint32 sequence counter. -/
theorem xr_accept (s : Nat) :
    (xmodem_receive 1 (c2Session 0 s) [] (c2Env (s % 256))).map rv =
      some ⟨XYM_OK, 1, 1, ACK, (s + 1) % 4294967296, 128, [([ACK], true)]⟩ := by
  have hd : s % 256 < 256 := Nat.mod_lt _ (by norm_num)
  have h1 : (s % 256) % 256 = s % 256 := by omega
  have h2 : (255 - s % 256) % 256 = 255 - s % 256 := by omega
  have h3 : 255 - (255 - s % 256) = s % 256 := by omega
  have ht0 : ((List.replicate 128 (0:Nat)) ++ List.replicate 128 0).take 128 =
      List.replicate 128 0 := by simp
  unfold xmodem_receive
  simp +decide [-List.reduceReplicate, xmodem_receive_loop, xmodem_receive_step,
    Env.doSend, Env.doRecv, c2Env, mkEnv, c2Session, xymodem_verify_data, crc16_soft_zeros,
    h1, h2, h3, ht0, rv,
    SOH, STX, EOT, ACK, NAK, CANCEL, CRC16_FLAG, XYM_PKT_SIZE_128, XYM_PKT_SIZE_1024, word16]

/-- Duplicate run with expected low byte at least 1: the packet
carrying the previous sequence byte is ACKed without delivery and the
poll keeps retrying until the budget ends. -/
theorem xr_dup (s : Nat) (hs1 : 1 ≤ s % 256) :
    (xmodem_receive 3 (c2Session 1 s) [] (c2Env (s % 256 - 1))).map rv =
      some ⟨XYM_ERROR_RETRANS, 1, 1, NAK, s, 0,
        [([ACK], true), ([ACK], true),
         ([CANCEL], true), ([CANCEL], true), ([CANCEL], true)]⟩ := by
  have hd : s % 256 < 256 := Nat.mod_lt _ (by norm_num)
  have h1 : (s % 256 - 1) % 256 = s % 256 - 1 := by omega
  have h2 : (255 - (s % 256 - 1)) % 256 = 255 - (s % 256 - 1) := by omega
  have h3 : 255 - (255 - (s % 256 - 1)) = s % 256 - 1 := by omega
  have h4 : ¬ (s % 256 = s % 256 - 1) := by omega
  have h5 : (s % 256 + 4294967295) % 4294967296 = s % 256 - 1 := by omega
  have ht0 : ((List.replicate 128 (0:Nat)) ++ List.replicate 128 0).take 128 =
      List.replicate 128 0 := by simp
  unfold xmodem_receive
  simp +decide [-List.reduceReplicate, xmodem_receive_loop, xmodem_receive_step,
    Env.doSend, Env.doRecv, c2Env, mkEnv, c2Session, xymodem_verify_data, crc16_soft_zeros,
    xymodem_active_cancel, xymodem_active_cancel_loop, h1, h2, h3, h4, h5, ht0, rv,
    SOH, STX, EOT, ACK, NAK, CANCEL, CRC16_FLAG, XYM_PKT_SIZE_128, XYM_PKT_SIZE_1024, word16]

/-- Wrapped duplicate run: with expected low byte 0, the packet
carrying sequence byte 255 is answered with NAK, not ACK, because
(seqno & 0xFF) - 1 is evaluated in uint32 arithmetic. -/
theorem xr_wrap (s : Nat) (hs0 : s % 256 = 0) :
    (xmodem_receive 3 (c2Session 1 s) [] (c2Env 255)).map rv =
      some ⟨XYM_ERROR_RETRANS, 1, 1, NAK, s, 0,
        [([ACK], true), ([NAK], true),
         ([CANCEL], true), ([CANCEL], true), ([CANCEL], true)]⟩ := by
  have h4 : ¬ (s % 256 = 255) := by omega
  have h5 : ¬ ((s % 256 + 4294967295) % 4294967296 = 255) := by omega
  have ht0 : ((List.replicate 128 (0:Nat)) ++ List.replicate 128 0).take 128 =
      List.replicate 128 0 := by simp
  unfold xmodem_receive
  simp +decide [-List.reduceReplicate, xmodem_receive_loop, xmodem_receive_step,
    Env.doSend, Env.doRecv, c2Env, mkEnv, c2Session, xymodem_verify_data, crc16_soft_zeros,
    xymodem_active_cancel, xymodem_active_cancel_loop, h4, h5, ht0, rv,
    SOH, STX, EOT, ACK, NAK, CANCEL, CRC16_FLAG, XYM_PKT_SIZE_128, XYM_PKT_SIZE_1024, word16]

/-- Ymodem acceptance run for a data packet (s > 0). -/
theorem yr_accept (s : Nat) (hsp : 0 < s) :
    (ymodem_receive 1 (c2Session 0 s) [] (c2Env (s % 256))).map rv =
      some ⟨XYM_OK, 1, 1, ACK, (s + 1) % 4294967296, 128, [([ACK], true)]⟩ := by
  have hd : s % 256 < 256 := Nat.mod_lt _ (by norm_num)
  have h1 : (s % 256) % 256 = s % 256 := by omega
  have h2 : (255 - s % 256) % 256 = 255 - s % 256 := by omega
  have h3 : 255 - (255 - s % 256) = s % 256 := by omega
  have h6 : ¬ (s = 0) := by omega
  have ht0 : ((List.replicate 128 (0:Nat)) ++ List.replicate 128 0).take 128 =
      List.replicate 128 0 := by simp
  unfold ymodem_receive
  simp +decide [-List.reduceReplicate, ymodem_receive_loop, ymodem_receive_step,
    Env.doSend, Env.doRecv, c2Env, mkEnv, c2Session, xymodem_verify_data, crc16_soft_zeros,
    h1, h2, h3, h6, ht0, rv,
    SOH, STX, EOT, ACK, NAK, CANCEL, CRC16_FLAG, XYM_PKT_SIZE_128, XYM_PKT_SIZE_1024, word16]

/-- Ymodem duplicate run with expected low byte at least 1. -/
theorem yr_dup (s : Nat) (hs1 : 1 ≤ s % 256) :
    (ymodem_receive 3 (c2Session 1 s) [] (c2Env (s % 256 - 1))).map rv =
      some ⟨XYM_ERROR_RETRANS, 1, 1, NAK, s, 0,
        [([ACK], true), ([ACK], true),
         ([CANCEL], true), ([CANCEL], true), ([CANCEL], true)]⟩ := by
  have hd : s % 256 < 256 := Nat.mod_lt _ (by norm_num)
  have h1 : (s % 256 - 1) % 256 = s % 256 - 1 := by omega
  have h2 : (255 - (s % 256 - 1)) % 256 = 255 - (s % 256 - 1) := by omega
  have h3 : 255 - (255 - (s % 256 - 1)) = s % 256 - 1 := by omega
  have h4 : ¬ (s % 256 = s % 256 - 1) := by omega
  have h5 : (s % 256 + 4294967295) % 4294967296 = s % 256 - 1 := by omega
  have ht0 : ((List.replicate 128 (0:Nat)) ++ List.replicate 128 0).take 128 =
      List.replicate 128 0 := by simp
  unfold ymodem_receive
  simp +decide [-List.reduceReplicate, ymodem_receive_loop, ymodem_receive_step,
    Env.doSend, Env.doRecv, c2Env, mkEnv, c2Session, xymodem_verify_data, crc16_soft_zeros,
    xymodem_active_cancel, xymodem_active_cancel_loop, h1, h2, h3, h4, h5, ht0, rv,
    SOH, STX, EOT, ACK, NAK, CANCEL, CRC16_FLAG, XYM_PKT_SIZE_128, XYM_PKT_SIZE_1024, word16]

/-- Ymodem wrapped duplicate run: NAK instead of ACK at low byte 0. -/
theorem yr_wrap (s : Nat) (hs0 : s % 256 = 0) :
    (ymodem_receive 3 (c2Session 1 s) [] (c2Env 255)).map rv =
      some ⟨XYM_ERROR_RETRANS, 1, 1, NAK, s, 0,
        [([ACK], true), ([NAK], true),
         ([CANCEL], true), ([CANCEL], true), ([CANCEL], true)]⟩ := by
  have h4 : ¬ (s % 256 = 255) := by omega
  have h5 : ¬ ((s % 256 + 4294967295) % 4294967296 = 255) := by omega
  have ht0 : ((List.replicate 128 (0:Nat)) ++ List.replicate 128 0).take 128 =
      List.replicate 128 0 := by simp
  unfold ymodem_receive
  simp +decide [-List.reduceReplicate, ymodem_receive_loop, ymodem_receive_step,
    Env.doSend, Env.doRecv, c2Env, mkEnv, c2Session, xymodem_verify_data, crc16_soft_zeros,
    xymodem_active_cancel, xymodem_active_cancel_loop, h4, h5, ht0, rv,
    SOH, STX, EOT, ACK, NAK, CANCEL, CRC16_FLAG, XYM_PKT_SIZE_128, XYM_PKT_SIZE_1024, word16]

/-- Claim C2 (counterexample): receiver expecting sequence 256 (low
byte 0, right after packet 255 was accepted) gets a well-formed
duplicate packet with wire sequence byte 255 = (0 - 1) mod 256.  The
claim says the receiver treats it as a duplicate and sets its reply to
ACK; the code sets the reply to NAK (trace entry 2) because
((seqno & 0xFF) - 1) is computed in uint32 arithmetic without
re-masking (0 - 1 = 0xFFFFFFFF, never a byte), and the poll ends in
XYM_ERROR_RETRANS instead of a silent duplicate-ACK retry. -/
theorem C2_counterexample :
    (xmodem_receive 3 (c2Session 1 256) [] (c2Env 255)).map rv =
      some ⟨XYM_ERROR_RETRANS, 1, 1, NAK, 256, 0,
        [([ACK], true), ([NAK], true),
         ([CANCEL], true), ([CANCEL], true), ([CANCEL], true)]⟩ ∧
    NAK ≠ ACK ∧ XYM_ERROR_RETRANS ≠ XYM_OK :=
  ⟨xr_wrap 256 rfl, by decide, by decide⟩

/-- Claim C2 (amended): for every expected sequence s, a well-formed
packet whose wire sequence byte equals s mod 256 is accepted by both
receivers (XYM_OK, payload delivered, seqno incremented mod 2^32), so
257 consecutive packets cycling 1..255,0,1 are all accepted via the
modulo-256 comparison; when the expected low byte is at least 1, a
packet carrying the previous sequence byte is treated as a duplicate of
the last accepted packet: the reply is set to ACK, nothing is delivered
(no XYM_OK, size stays 0, seqno unchanged) and the receiver retries;
but when the expected low byte is 0 (after packet 255) the duplicate
carrying byte 255 is answered with NAK like any other mismatch, because
(expected - 1) is computed without the mod-256 mask. -/
theorem C2_amended (s : Nat) :
    ((xmodem_receive 1 (c2Session 0 s) [] (c2Env (s % 256))).map rv =
        some ⟨XYM_OK, 1, 1, ACK, (s + 1) % 4294967296, 128, [([ACK], true)]⟩) ∧
    (1 ≤ s % 256 →
      (xmodem_receive 3 (c2Session 1 s) [] (c2Env (s % 256 - 1))).map rv =
        some ⟨XYM_ERROR_RETRANS, 1, 1, NAK, s, 0,
          [([ACK], true), ([ACK], true),
           ([CANCEL], true), ([CANCEL], true), ([CANCEL], true)]⟩) ∧
    (s % 256 = 0 →
      (xmodem_receive 3 (c2Session 1 s) [] (c2Env 255)).map rv =
        some ⟨XYM_ERROR_RETRANS, 1, 1, NAK, s, 0,
          [([ACK], true), ([NAK], true),
           ([CANCEL], true), ([CANCEL], true), ([CANCEL], true)]⟩) ∧
    (0 < s →
      (ymodem_receive 1 (c2Session 0 s) [] (c2Env (s % 256))).map rv =
        some ⟨XYM_OK, 1, 1, ACK, (s + 1) % 4294967296, 128, [([ACK], true)]⟩) ∧
    (1 ≤ s % 256 →
      (ymodem_receive 3 (c2Session 1 s) [] (c2Env (s % 256 - 1))).map rv =
        some ⟨XYM_ERROR_RETRANS, 1, 1, NAK, s, 0,
          [([ACK], true), ([ACK], true),
           ([CANCEL], true), ([CANCEL], true), ([CANCEL], true)]⟩) ∧
    (s % 256 = 0 →
      (ymodem_receive 3 (c2Session 1 s) [] (c2Env 255)).map rv =
        some ⟨XYM_ERROR_RETRANS, 1, 1, NAK, s, 0,
          [([ACK], true), ([NAK], true),
           ([CANCEL], true), ([CANCEL], true), ([CANCEL], true)]⟩) :=
  ⟨xr_accept s, xr_dup s, xr_wrap s, yr_accept s, yr_dup s, yr_wrap s⟩

/-- Witness for C2 at concrete sequence values: packet 256 (wire byte
0, the wrapped value) is accepted with seqno 257, and at expected
sequence 257 the duplicate wire byte 0 is ACKed without delivery. -/
theorem C2_amended_witness :
    ((xmodem_receive 1 (c2Session 0 256) [] (c2Env 0)).map rv =
        some ⟨XYM_OK, 1, 1, ACK, 257, 128, [([ACK], true)]⟩) ∧
    ((xmodem_receive 3 (c2Session 1 257) [] (c2Env 0)).map rv =
        some ⟨XYM_ERROR_RETRANS, 1, 1, NAK, 257, 0,
          [([ACK], true), ([ACK], true),
           ([CANCEL], true), ([CANCEL], true), ([CANCEL], true)]⟩) := by
  constructor
  · have h := (C2_amended 256).1
    norm_num at h
    exact Option.map_eq_some'.mpr h
  · have h := (C2_amended 257).2.1 (by norm_num)
    norm_num at h
    exact Option.map_eq_some'.mpr h
/-- One ymodem_receive loop iteration under send-ok/recv-timeout: the
handshake request is resent and one retry is consumed. -/
theorem yr_timeout_iter (p : xym_session) (buff : List Nat) (eotf retry fuel : Nat) (e : Env)
    (hph : p.handshake = 0) (hpr : p.reply_msg = CRC16_FLAG)
    (hs : e.sendOk e.si = true) (hr : e.recvRes e.ri = none)
    (hle : retry ≤ p.error_max_retry) (hlt : retry + 1 < 256) :
    ymodem_receive_loop (fuel+1) p buff eotf retry e =
      ymodem_receive_loop fuel p buff eotf (retry + 1)
        { e with si := e.si + 1, ri := e.ri + 1, tr := e.tr ++ [([CRC16_FLAG], true)] } := by
  obtain ⟨st, rt, mr, hsk, cf, rm, sq, a, b, c⟩ := p
  simp only [xym_session.handshake] at hph
  simp only [xym_session.reply_msg] at hpr
  subst hph; subst hpr
  rw [ymodem_receive_loop, if_pos hle]
  rw [show ymodem_receive_step ⟨st, rt, mr, 0, cf, CRC16_FLAG, sq, a, b, c⟩ buff eotf e =
      .cont ⟨st, rt, mr, 0, cf, CRC16_FLAG, sq, a, b, c⟩ buff eotf 0 { e with si := e.si + 1, ri := e.ri + 1, tr := e.tr ++ [([CRC16_FLAG], true)] } from by
    rw [ymodem_receive_step]
    simp [Env.doSend, Env.doRecv, hs, hr, ACK, CRC16_FLAG]]
  simp [Nat.mod_eq_of_lt hlt]

/-- Exhausting the remaining k retries of ymodem_receive on recv
timeouts: k further handshake requests are sent, then active cancel (3
CANCELs) and XYM_ERROR_RETRANS. -/
theorem yr_timeout_cycle (buff : List Nat) :
    ∀ k retry eotf (p : xym_session) (e : Env),
      p.error_max_retry ≤ 254 → p.handshake = 0 → p.reply_msg = CRC16_FLAG →
      (∀ n, e.sendOk n = true) → (∀ n, e.ri ≤ n → e.recvRes n = none) →
      retry + k = p.error_max_retry + 1 →
      ymodem_receive_loop (k + 1) p buff eotf retry e =
        some ⟨XYM_ERROR_RETRANS, p, buff, 0,
          { e with si := e.si + k + 3, ri := e.ri + k,
                   tr := e.tr ++ List.replicate k ([CRC16_FLAG], true)
                         ++ [([CANCEL], true), ([CANCEL], true), ([CANCEL], true)] }⟩ := by
  intro k
  induction k with
  | zero =>
    intro retry eotf p e hmx hph hpr hsend hrecv hcnt
    rw [ymodem_receive_loop]
    rw [if_neg (by omega)]
    rw [cancel_allok p e hsend]
    simp
  | succ k ih =>
    intro retry eotf p e hmx hph hpr hsend hrecv hcnt
    rw [yr_timeout_iter p buff eotf retry (k+1) e hph hpr (hsend e.si) (hrecv e.ri (le_refl _))
      (by omega) (by omega)]
    rw [ih (retry + 1) eotf p
      { e with si := e.si + 1, ri := e.ri + 1, tr := e.tr ++ [([CRC16_FLAG], true)] }
      hmx hph hpr hsend (fun n hn => hrecv n (by simp at hn; omega)) (by omega)]
    simp [List.replicate_succ]
    constructor
    · omega
    · omega

/-- Mid-file ymodem receiver about to see the end of a file. -/
def c6Session (mx s : Nat) : xym_session := ⟨0, 0, mx, 1, 1, ACK, s, none, none, none⟩

/-- Transport delivering exactly two EOT bytes, then timeouts; all
sends succeed. -/
def c6Env : Env := mkEnv (fun _ => true) (fun n => if n < 2 then some [EOT] else none)

/-- First three loop iterations of the C6 run: ACK is sent (reply to
the last data packet), the first EOT is answered by queueing NAK, the
second EOT by queueing ACK and resetting handshake and seqno to 0, and
the handshake special case turns the ACK into a fresh CRC request; no
retry is consumed (retry is still 0 afterwards). -/
theorem c6_prelude (mx s : Nat) :
    ymodem_receive_loop (mx + 4 + 1) (c6Session mx s) [] 0 0 c6Env =
      ymodem_receive_loop (mx + 1 + 1) ⟨0, 0, mx, 0, 1, CRC16_FLAG, 0, none, none, none⟩ [] 0 0
        { c6Env with si := 3, ri := 2, tr := [([ACK], true), ([NAK], true), ([ACK], true)] } := by
  rw [ymodem_receive_loop, if_pos (Nat.zero_le _)]
  rw [show ymodem_receive_step (c6Session mx s) [] 0 c6Env =
      .cont ⟨0, 0, mx, 1, 1, NAK, s, none, none, none⟩ [] 1 1 { c6Env with si := 1, ri := 1, tr := [([ACK], true)] } from by
    rw [ymodem_receive_step]
    simp +decide [Env.doSend, Env.doRecv, c6Session, c6Env, mkEnv, SOH, STX, EOT, ACK, NAK, CANCEL, CRC16_FLAG]]
  simp only [show (1:Nat) = 0 ↔ False from by simp, if_false]
  rw [show mx + 4 = mx + 3 + 1 from rfl]
  rw [ymodem_receive_loop, if_pos (Nat.zero_le _)]
  rw [show ymodem_receive_step ⟨0, 0, mx, 1, 1, NAK, s, none, none, none⟩ [] 1
        { c6Env with si := 1, ri := 1, tr := [([ACK], true)] } =
      .cont ⟨0, 0, mx, 0, 1, ACK, 0, none, none, none⟩ [] 0 1 { c6Env with si := 2, ri := 2, tr := [([ACK], true), ([NAK], true)] } from by
    rw [ymodem_receive_step]
    simp +decide [Env.doSend, Env.doRecv, c6Env, mkEnv, SOH, STX, EOT, ACK, NAK, CANCEL, CRC16_FLAG]]
  simp only [show (1:Nat) = 0 ↔ False from by simp, if_false]
  rw [show mx + 3 = mx + 2 + 1 from rfl]
  rw [ymodem_receive_loop, if_pos (Nat.zero_le _)]
  rw [show ymodem_receive_step ⟨0, 0, mx, 0, 1, ACK, 0, none, none, none⟩ [] 0
        { c6Env with si := 2, ri := 2, tr := [([ACK], true), ([NAK], true)] } =
      .cont ⟨0, 0, mx, 0, 1, CRC16_FLAG, 0, none, none, none⟩ [] 0 1 { c6Env with si := 3, ri := 2, tr := [([ACK], true), ([NAK], true), ([ACK], true)] } from by
    rw [ymodem_receive_step]
    simp +decide [Env.doSend, Env.doRecv, c6Env, mkEnv, SOH, STX, EOT, ACK, NAK, CANCEL, CRC16_FLAG]]
  simp only [show (1:Nat) = 0 ↔ False from by simp, if_false]

/-- Claim C6: in ymodem_receive the first EOT is answered with NAK (not
ACK) and the second consecutive EOT with ACK, resetting handshake and
seqno to 0 for the next file header; neither EOT consumes a retry (the
full budget of mx + 1 further handshake requests is still spent
afterwards) and neither EOT yields a terminal status by itself - the
call keeps polling and the final XYM_ERROR_RETRANS stems only from the
injected recv timeouts that follow. -/
theorem C6_double_eot (mx s : Nat) (hmx : mx ≤ 254) :
    (ymodem_receive (mx + 4 + 1) (c6Session mx s) [] c6Env).map rv =
      some ⟨XYM_ERROR_RETRANS, 0, 1, CRC16_FLAG, 0, 0,
        [([ACK], true), ([NAK], true), ([ACK], true)]
          ++ List.replicate (mx + 1) ([CRC16_FLAG], true)
          ++ [([CANCEL], true), ([CANCEL], true), ([CANCEL], true)]⟩ := by
  unfold ymodem_receive
  rw [c6_prelude mx s]
  rw [yr_timeout_cycle [] (mx + 1) 0 0 ⟨0, 0, mx, 0, 1, CRC16_FLAG, 0, none, none, none⟩
    { c6Env with si := 3, ri := 2, tr := [([ACK], true), ([NAK], true), ([ACK], true)] }
    hmx rfl rfl (fun n => rfl) (fun n hn => by simp [c6Env, mkEnv] at hn ⊢; omega) (by simp)]
  simp [rv, c6Env, mkEnv]

/-- Witness for C6 with retry budget 1 and an arbitrary prior sequence
number 5. -/
theorem C6_double_eot_witness :
    (ymodem_receive 6 (c6Session 1 5) [] c6Env).map rv =
      some ⟨XYM_ERROR_RETRANS, 0, 1, CRC16_FLAG, 0, 0,
        [([ACK], true), ([NAK], true), ([ACK], true), ([CRC16_FLAG], true),
         ([CRC16_FLAG], true), ([CANCEL], true), ([CANCEL], true), ([CANCEL], true)]⟩ := by
  have h := C6_double_eot 1 5 (by decide)
  simpa using h
/-- Handshake request byte for a verification mode: 'C' in CRC mode,
NAK in checksum mode (xymodem.c lines 102/142). -/
def rq (c : Nat) : Nat := if c ≠ 0 then CRC16_FLAG else NAK

/-- One xmodem_receive loop iteration before the first handshake under
send-ok/recv-timeout, away from the cycle end: the request byte of the
current mode is resent and one retry is consumed, without toggling. -/
theorem xr_hs_iter (st rt mr cf sq : Nat) (a b : Option Nat) (c : Option (List Nat → Nat))
    (buff : List Nat) (hsf retry fuel : Nat) (e : Env)
    (hs : e.sendOk e.si = true) (hr : e.recvRes e.ri = none)
    (hnt : hsf = 1 ∨ retry < mr) (hle : retry ≤ mr) (hlt : retry + 1 < 256) :
    xmodem_receive_loop (fuel+1) ⟨st, rt, mr, 0, cf, rq cf, sq, a, b, c⟩ buff hsf retry e =
      xmodem_receive_loop fuel ⟨st, rt, mr, 0, cf, rq cf, sq, a, b, c⟩ buff hsf (retry + 1)
        { e with si := e.si + 1, ri := e.ri + 1, tr := e.tr ++ [([rq cf], true)] } := by
  have hcond : ¬ (hsf = 0 ∧ mr ≤ retry) := by omega
  rw [xmodem_receive_loop, if_pos hle]
  rw [show xmodem_receive_step ⟨st, rt, mr, 0, cf, rq cf, sq, a, b, c⟩ buff hsf retry e =
      .cont ⟨st, rt, mr, 0, cf, rq cf, sq, a, b, c⟩ buff hsf retry { e with si := e.si + 1, ri := e.ri + 1, tr := e.tr ++ [([rq cf], true)] } from by
    rw [xmodem_receive_step]
    simp [Env.doSend, Env.doRecv, hs, hr, hcond, rq, CRC16_FLAG, NAK]]
  simp [Nat.mod_eq_of_lt hlt]

/-- The loop iteration that ends a full retry cycle (retry has reached
error_max_retry with handshake_flag still 0): the mode is toggled once,
the retry counter restarts (reset to 0, then incremented), and
handshake_flag becomes 1 so no further toggle can occur in this call. -/
theorem xr_hs_toggle_iter (st rt mr cf sq : Nat) (a b : Option Nat)
    (c : Option (List Nat → Nat)) (buff : List Nat) (retry fuel : Nat) (e : Env)
    (hs : e.sendOk e.si = true) (hr : e.recvRes e.ri = none)
    (hge : mr ≤ retry) (hle : retry ≤ mr) :
    xmodem_receive_loop (fuel+1) ⟨st, rt, mr, 0, cf, rq cf, sq, a, b, c⟩ buff 0 retry e =
      xmodem_receive_loop fuel ⟨st, rt, mr, 0, cf ^^^ 1, rq (cf ^^^ 1), sq, a, b, c⟩ buff 1 1
        { e with si := e.si + 1, ri := e.ri + 1, tr := e.tr ++ [([rq cf], true)] } := by
  rw [xmodem_receive_loop, if_pos hle]
  rw [show xmodem_receive_step ⟨st, rt, mr, 0, cf, rq cf, sq, a, b, c⟩ buff 0 retry e =
      .cont ⟨st, rt, mr, 0, cf ^^^ 1, rq (cf ^^^ 1), sq, a, b, c⟩ buff 1 0 { e with si := e.si + 1, ri := e.ri + 1, tr := e.tr ++ [([rq cf], true)] } from by
    rw [xmodem_receive_step]
    simp [Env.doSend, Env.doRecv, hs, hr, hge, rq, CRC16_FLAG, NAK]]

/-- After the toggle (handshake_flag = 1): the remaining k attempts all
resend the request byte of the toggled mode, then active cancel and
XYM_ERROR_RETRANS. -/
theorem xr_hs_cycle2 (st rt mr cf sq : Nat) (a b : Option Nat) (c : Option (List Nat → Nat))
    (buff : List Nat) (hmx : mr ≤ 254) :
    ∀ k retry (e : Env),
      (∀ n, e.sendOk n = true) → (∀ n, e.recvRes n = none) →
      retry + k = mr + 1 →
      xmodem_receive_loop (k + 1) ⟨st, rt, mr, 0, cf, rq cf, sq, a, b, c⟩ buff 1 retry e =
        some ⟨XYM_ERROR_RETRANS, ⟨st, rt, mr, 0, cf, rq cf, sq, a, b, c⟩, buff, 0,
          { e with si := e.si + k + 3, ri := e.ri + k,
                   tr := e.tr ++ List.replicate k ([rq cf], true)
                         ++ [([CANCEL], true), ([CANCEL], true), ([CANCEL], true)] }⟩ := by
  intro k
  induction k with
  | zero =>
    intro retry e hsend hrecv hcnt
    rw [xmodem_receive_loop]
    rw [if_neg (by simp; omega)]
    rw [cancel_allok _ e hsend]
    simp
  | succ k ih =>
    intro retry e hsend hrecv hcnt
    rw [xr_hs_iter st rt mr cf sq a b c buff 1 retry (k+1) e (hsend e.si) (hrecv e.ri)
      (Or.inl rfl) (by omega) (by omega)]
    rw [ih (retry + 1) { e with si := e.si + 1, ri := e.ri + 1, tr := e.tr ++ [([rq cf], true)] }
      hsend hrecv (by omega)]
    simp [List.replicate_succ]
    all_goals first | omega | (constructor <;> omega)

/-- Full two-cycle run from handshake_flag = 0: j + 1 requests in the
initial mode, one toggle at the cycle end, mr requests in the toggled
mode, then active cancel and XYM_ERROR_RETRANS with crc_flag flipped. -/
theorem xr_hs_cycle1 (st rt mr cf sq : Nat) (a b : Option Nat) (c : Option (List Nat → Nat))
    (buff : List Nat) (hmx : mr ≤ 254) :
    ∀ j retry (e : Env),
      (∀ n, e.sendOk n = true) → (∀ n, e.recvRes n = none) →
      retry + j = mr →
      xmodem_receive_loop (j + mr + 2) ⟨st, rt, mr, 0, cf, rq cf, sq, a, b, c⟩ buff 0 retry e =
        some ⟨XYM_ERROR_RETRANS, ⟨st, rt, mr, 0, cf ^^^ 1, rq (cf ^^^ 1), sq, a, b, c⟩, buff, 0,
          { e with si := e.si + (j + 1) + mr + 3, ri := e.ri + (j + 1) + mr,
                   tr := e.tr ++ List.replicate (j + 1) ([rq cf], true)
                         ++ List.replicate mr ([rq (cf ^^^ 1)], true)
                         ++ [([CANCEL], true), ([CANCEL], true), ([CANCEL], true)] }⟩ := by
  intro j
  induction j with
  | zero =>
    intro retry e hsend hrecv hcnt
    rw [show (0:Nat) + mr + 2 = (mr + 1) + 1 from by omega]
    rw [xr_hs_toggle_iter st rt mr cf sq a b c buff retry (mr + 1) e (hsend e.si) (hrecv e.ri)
      (by omega) (by omega)]
    rw [xr_hs_cycle2 st rt mr (cf ^^^ 1) sq a b c buff hmx mr 1
      { e with si := e.si + 1, ri := e.ri + 1, tr := e.tr ++ [([rq cf], true)] }
      hsend hrecv (by omega)]
    simp
    all_goals first | omega | (constructor <;> omega)
  | succ j ih =>
    intro retry e hsend hrecv hcnt
    rw [show (j + 1) + mr + 2 = (j + mr + 2) + 1 from by omega]
    rw [xr_hs_iter st rt mr cf sq a b c buff 0 retry (j + mr + 2) e (hsend e.si) (hrecv e.ri)
      (Or.inr (by omega)) (by omega) (by omega)]
    rw [ih (retry + 1) { e with si := e.si + 1, ri := e.ri + 1, tr := e.tr ++ [([rq cf], true)] }
      hsend hrecv (by omega)]
    simp [List.replicate_succ]
    all_goals first | omega | (constructor <;> omega)

/-- Transport whose sends succeed and recvs always time out. -/
def c4Env : Env := mkEnv (fun _ => true) (fun _ => none)

/-- Claim C4: an xmodem_receive session that has not completed its
first handshake and sees only control-byte read timeouts alternates the
verification mode once per full retry cycle, not per individual retry:
the trace shows mx + 1 consecutive requests in the initial mode (the
full first cycle), then the alternated request byte for the whole
subsequent cycle, and the session ends the call with crc_flag toggled
exactly once, so the next poll retries with the alternated mode
again. -/
theorem C4_handshake_alternation (mx s cf : Nat) (hmx : mx ≤ 254) (hcf : cf ≤ 1) :
    (xmodem_receive (mx + mx + 2) ⟨0, 0, mx, 0, cf, rq cf, s, none, none, none⟩ [] c4Env).map rv =
      some ⟨XYM_ERROR_RETRANS, 0, cf ^^^ 1, rq (cf ^^^ 1), s, 0,
        List.replicate (mx + 1) ([rq cf], true) ++ List.replicate mx ([rq (cf ^^^ 1)], true)
          ++ [([CANCEL], true), ([CANCEL], true), ([CANCEL], true)]⟩ := by
  unfold xmodem_receive
  rw [xr_hs_cycle1 0 0 mx cf s none none none [] hmx mx 0 c4Env (fun n => rfl) (fun n => rfl)
    (by omega)]
  simp [rv, c4Env, mkEnv]

/-- Witness for C4 with budget 1 starting in CRC mode: two 'C'
requests, one NAK request, then cancel. -/
theorem C4_handshake_alternation_witness :
    (xmodem_receive 4 ⟨0, 0, 1, 0, 1, CRC16_FLAG, 1, none, none, none⟩ [] c4Env).map rv =
      some ⟨XYM_ERROR_RETRANS, 0, 0, NAK, 1, 0,
        [([CRC16_FLAG], true), ([CRC16_FLAG], true), ([NAK], true),
         ([CANCEL], true), ([CANCEL], true), ([CANCEL], true)]⟩ := by
  have h := C4_handshake_alternation 1 1 1 (by decide) (by decide)
  simpa [rq, CRC16_FLAG, NAK] using h
/-- Exhausting the remaining k retries of the xmodem_receive loop when
every send fails: k reply attempts are recorded as failures, then
active cancel attempts min 3 (max+1) CANCELs (all failing too) and the
call returns XYM_ERROR_RETRANS. -/
theorem xr_allfail_cycle (p : xym_session) (buff : List Nat) (hsf : Nat)
    (hmx : p.error_max_retry ≤ 254) :
    ∀ k retry (e : Env), (∀ n, e.sendOk n = false) →
      retry + k = p.error_max_retry + 1 →
      xmodem_receive_loop (k + 1) p buff hsf retry e =
        some ⟨XYM_ERROR_RETRANS, p, buff, 0,
          { e with si := e.si + k + min 3 (p.error_max_retry + 1),
                   tr := e.tr ++ List.replicate k ([p.reply_msg], false)
                         ++ List.replicate (min 3 (p.error_max_retry + 1)) ([CANCEL], false) }⟩ := by
  intro k
  induction k with
  | zero =>
    intro retry e hsend hcnt
    rw [xmodem_receive_loop, if_neg (by omega), cancel_allfail p e hsend]
    simp
  | succ k ih =>
    intro retry e hsend hcnt
    rw [xmodem_receive_loop, if_pos (by omega)]
    rw [show xmodem_receive_step p buff hsf retry e =
        .cont p buff hsf retry { e with si := e.si + 1, tr := e.tr ++ [([p.reply_msg], false)] } from by
      rw [xmodem_receive_step]
      simp [Env.doSend, hsend e.si]]
    show xmodem_receive_loop (k + 1) p buff hsf ((retry + 1) % 256)
      { e with si := e.si + 1, tr := e.tr ++ [([p.reply_msg], false)] } = _
    rw [show (retry + 1) % 256 = retry + 1 from Nat.mod_eq_of_lt (by omega)]
    rw [ih (retry + 1) { e with si := e.si + 1, tr := e.tr ++ [([p.reply_msg], false)] }
      hsend (by omega)]
    simp [List.replicate_succ]
    all_goals first | omega | (constructor <;> omega)

/-- The same exhaustion for the EOT loop of xmodem_transmit. -/
theorem xt_eot_allfail_cycle (p : xym_session) (hmx : p.error_max_retry ≤ 254) :
    ∀ k retry (e : Env), (∀ n, e.sendOk n = false) →
      retry + k = p.error_max_retry + 1 →
      xm_tx_eot_loop (k + 1) p retry e =
        some (XYM_ERROR_RETRANS, p,
          { e with si := e.si + k + min 3 (p.error_max_retry + 1),
                   tr := e.tr ++ List.replicate k ([EOT], false)
                         ++ List.replicate (min 3 (p.error_max_retry + 1)) ([CANCEL], false) }) := by
  intro k
  induction k with
  | zero =>
    intro retry e hsend hcnt
    rw [xm_tx_eot_loop, if_neg (by omega), cancel_allfail p e hsend]
    simp
  | succ k ih =>
    intro retry e hsend hcnt
    rw [xm_tx_eot_loop, if_pos (by omega)]
    rw [show e.doSend [EOT] = (false, { e with si := e.si + 1, tr := e.tr ++ [([EOT], false)] })
      from by simp [Env.doSend, hsend e.si]]
    show xm_tx_eot_loop (k + 1) p ((retry + 1) % 256)
      { e with si := e.si + 1, tr := e.tr ++ [([EOT], false)] } = _
    rw [show (retry + 1) % 256 = retry + 1 from Nat.mod_eq_of_lt (by omega)]
    rw [ih (retry + 1) { e with si := e.si + 1, tr := e.tr ++ [([EOT], false)] } hsend (by omega)]
    simp [List.replicate_succ]
    all_goals first | omega | (constructor <;> omega)

/-- Exhaustion of the xmodem_transmit handshake wait: max+1 recv
attempts, no sends, then the loop falls out with retry = max+1. -/
theorem xt_hs_allfail_cycle (p : xym_session) (hp0 : p.handshake = 0)
    (hmx : p.error_max_retry ≤ 254) :
    ∀ k retry (e : Env), (∀ n, e.recvRes n = none) →
      retry + k = p.error_max_retry + 1 →
      xm_tx_handshake_loop (k + 1) p retry e =
        some (.inr (p, p.error_max_retry + 1, { e with ri := e.ri + k })) := by
  intro k
  induction k with
  | zero =>
    intro retry e hrecv hcnt
    rw [xm_tx_handshake_loop, if_neg (by omega)]
    rw [show retry = p.error_max_retry + 1 from by omega]
    simp
  | succ k ih =>
    intro retry e hrecv hcnt
    rw [xm_tx_handshake_loop, if_pos ⟨hp0, by omega⟩]
    rw [show e.doRecv 1 = (none, { e with ri := e.ri + 1 }) from by simp [Env.doRecv, hrecv e.ri]]
    show xm_tx_handshake_loop (k + 1) p ((retry + 1) % 256) { e with ri := e.ri + 1 } = _
    rw [show (retry + 1) % 256 = retry + 1 from Nat.mod_eq_of_lt (by omega)]
    rw [ih (retry + 1) { e with ri := e.ri + 1 } hrecv (by omega)]
    simp
    omega

/-- The same exhaustion for the packet send loop of xmodem_transmit
(the header send fails on each of the k attempts). -/
theorem xt_send_allfail_cycle (p : xym_session) (hdr data tl : List Nat)
    (hmx : p.error_max_retry ≤ 254) :
    ∀ k retry (e : Env), (∀ n, e.sendOk n = false) →
      retry + k = p.error_max_retry + 1 →
      xm_tx_send_loop (k + 1) p hdr data tl retry e =
        some (XYM_ERROR_RETRANS, p,
          { e with si := e.si + k + min 3 (p.error_max_retry + 1),
                   tr := e.tr ++ List.replicate k (hdr, false)
                         ++ List.replicate (min 3 (p.error_max_retry + 1)) ([CANCEL], false) }) := by
  intro k
  induction k with
  | zero =>
    intro retry e hsend hcnt
    rw [xm_tx_send_loop, if_neg (by omega), cancel_allfail p e hsend]
    simp
  | succ k ih =>
    intro retry e hsend hcnt
    rw [xm_tx_send_loop, if_pos (by omega)]
    rw [show e.doSend hdr = (false, { e with si := e.si + 1, tr := e.tr ++ [(hdr, false)] })
      from by simp [Env.doSend, hsend e.si]]
    show xm_tx_send_loop (k + 1) p hdr data tl ((retry + 1) % 256)
      { e with si := e.si + 1, tr := e.tr ++ [(hdr, false)] } = _
    rw [show (retry + 1) % 256 = retry + 1 from Nat.mod_eq_of_lt (by omega)]
    rw [ih (retry + 1) { e with si := e.si + 1, tr := e.tr ++ [(hdr, false)] } hsend (by omega)]
    simp [List.replicate_succ]
    all_goals first | omega | (constructor <;> omega)

/-- Status plus send trace of a transmit result. -/
def sview (o : TxOut) : xym_sta × List (List Nat × Bool) := (o.sta, o.env.tr)

/-- Claim C3 (amended): with a transport that always reports a timeout
and error_max_retry at most 254, xmodem_receive and all three phases of
xmodem_transmit (EOT, handshake wait, data packet) return
XYM_ERROR_RETRANS after exactly error_max_retry + 1 protocol-step
attempts, visible as exactly error_max_retry + 1 failed transport
operations (reply sends, EOT sends, handshake recvs, or header sends),
followed by min 3 (error_max_retry + 1) CANCEL send attempts from the
active-cancel routine - the CANCEL byte is handed to the send callback
at least once before the call returns. -/
theorem C3_amended (p q : xym_session) (buff : List Nat) (size : Nat) (e : Env)
    (hmx : p.error_max_retry ≤ 254) (hqmx : q.error_max_retry ≤ 254)
    (hsend : ∀ n, e.sendOk n = false) (hrecv : ∀ n, e.recvRes n = none)
    (hq0 : q.handshake = 0) (hp1 : p.handshake ≠ 0) (hsz : 0 < size) :
    ((xmodem_receive (p.error_max_retry + 2) p buff e).map rv =
        some ⟨XYM_ERROR_RETRANS, p.handshake, p.crc_flag, p.reply_msg, p.seqno, 0,
          e.tr ++ List.replicate (p.error_max_retry + 1) ([p.reply_msg], false)
            ++ List.replicate (min 3 (p.error_max_retry + 1)) ([CANCEL], false)⟩) ∧
    ((xmodem_transmit (p.error_max_retry + 2) p buff 0 e).map sview =
        some (XYM_ERROR_RETRANS,
          e.tr ++ List.replicate (p.error_max_retry + 1) ([EOT], false)
            ++ List.replicate (min 3 (p.error_max_retry + 1)) ([CANCEL], false))) ∧
    ((xmodem_transmit (q.error_max_retry + 2) q buff size e).map sview =
        some (XYM_ERROR_RETRANS,
          e.tr ++ List.replicate (min 3 (q.error_max_retry + 1)) ([CANCEL], false)) ∧
     (xmodem_transmit (q.error_max_retry + 2) q buff size e).map (fun o => o.env.ri) =
        some (e.ri + (q.error_max_retry + 1))) ∧
    ((xmodem_transmit (p.error_max_retry + 2) p buff size e).map sview =
        some (XYM_ERROR_RETRANS,
          e.tr ++ List.replicate (p.error_max_retry + 1)
              ([if frameSize size = XYM_PKT_SIZE_128 then SOH else STX,
                p.seqno % 256, 255 - p.seqno % 256], false)
            ++ List.replicate (min 3 (p.error_max_retry + 1)) ([CANCEL], false))) := by
  refine ⟨?_, ?_, ?_, ?_⟩
  · unfold xmodem_receive
    rw [show p.error_max_retry + 2 = (p.error_max_retry + 1) + 1 from rfl]
    rw [xr_allfail_cycle p buff 0 hmx (p.error_max_retry + 1) 0 e hsend (by omega)]
    simp [rv]
  · rw [xmodem_transmit]
    rw [if_pos rfl]
    rw [show p.error_max_retry + 2 = (p.error_max_retry + 1) + 1 from rfl]
    rw [xt_eot_allfail_cycle p hmx (p.error_max_retry + 1) 0 e hsend (by omega)]
    simp [sview]
  · have h3 : xmodem_transmit (q.error_max_retry + 2) q buff size e =
        some ⟨XYM_ERROR_RETRANS, q, buff,
          { e with si := e.si + min 3 (q.error_max_retry + 1),
                   ri := e.ri + (q.error_max_retry + 1),
                   tr := e.tr ++ List.replicate (min 3 (q.error_max_retry + 1))
                         ([CANCEL], false) }⟩ := by
      rw [xmodem_transmit]
      rw [if_neg (by omega)]
      rw [show q.error_max_retry + 2 = (q.error_max_retry + 1) + 1 from rfl]
      rw [xt_hs_allfail_cycle q hq0 hqmx (q.error_max_retry + 1) 0 e hrecv (by omega)]
      have hc := cancel_allfail q { e with ri := e.ri + (q.error_max_retry + 1) } hsend
      simp only [hc]
      rw [if_pos (by omega)]
    refine ⟨?_, ?_⟩
    · rw [h3]; simp [sview]
    · rw [h3]; rfl
  · rw [xmodem_transmit]
    rw [if_neg (by omega)]
    rw [show p.error_max_retry + 2 = (p.error_max_retry + 1) + 1 from rfl]
    rw [xm_tx_handshake_loop]
    rw [if_neg (by simp [hp1])]
    simp only [Nat.not_lt_zero, if_false]
    rw [xt_send_allfail_cycle p _ _ _ hmx (p.error_max_retry + 1) 0 e hsend (by omega)]
    simp [sview]

/-- Session with the wrap-around budget error_max_retry = 255. -/
def c3Session255 : xym_session := ⟨0, 0, 255, 1, 1, ACK, 1, none, none, none⟩

/-- Claim C3 (counterexample): with error_max_retry = 255 the claim
fails: the uint8 retry counter wraps inside retry <= error_max_retry,
so after 257 loop iterations (more than the claimed
error_max_retry + 1 = 256 attempts) xmodem_receive still has not
returned - the C loop never terminates. -/
theorem C3_counterexample :
    xmodem_receive 257 c3Session255 [] c10failEnv = none ∧ 257 = (255 + 1) + 1 := by
  exact ⟨rfl, rfl⟩

/-- Witness for C3 with budget 2: three failed reply attempts, then
three failed CANCEL attempts, then XYM_ERROR_RETRANS. -/
theorem C3_amended_witness :
    (xmodem_receive 4 ⟨0, 0, 2, 1, 1, ACK, 5, none, none, none⟩ [] c10failEnv).map rv =
      some ⟨XYM_ERROR_RETRANS, 1, 1, ACK, 5, 0,
        [([ACK], false), ([ACK], false), ([ACK], false),
         ([CANCEL], false), ([CANCEL], false), ([CANCEL], false)]⟩ := by
  have h := (C3_amended ⟨0, 0, 2, 1, 1, ACK, 5, none, none, none⟩
    ⟨0, 0, 2, 0, 1, CRC16_FLAG, 0, none, none, none⟩ [] 5 c10failEnv
    (by decide) (by decide) (fun n => rfl) (fun n => rfl) rfl (by decide) (by decide)).1
  simpa [c10failEnv, mkEnv] using h
